import Mathlib

/-!
Verification of the social-media post-generation workflow
(`Socialmedia.py`): an editor stage, per-platform writer and critique
stages for Twitter and LinkedIn, and a convergence gate
(`should_rewrite`) that loops both platforms through critique/write
cycles until both draft lists reach `n_drafts`.

The embedding models the text-generation service as a function from the
call index and the two instructions (system, user) to an optional
response; `none` models a service failure (`GenerationFailure`).  The
engine executes the graph sequentially (editor; then per round: Twitter
writer, LinkedIn writer, gate, and on `reroute` the two critiques),
which the specification explicitly allows, threading a call counter and
recording a trace of stage executions with the state after each stage.
-/

namespace SocialMedia

/-- Python `str.strip()`: drop whitespace at both ends of the string. -/
def pyStrip (s : String) : String :=
  ⟨((s.data.dropWhile Char.isWhitespace).reverse.dropWhile Char.isWhitespace).reverse⟩

/-- Python truthiness of an `Optional[str]`: `None` and `""` are falsy.
The writers test `if not post.feedback` with this semantics. -/
def pyTruthy : Option String → Bool
  | none => false
  | some s => s != ""

/-- The `Post` pydantic model: the per-platform workspace. -/
structure Post where
  drafts : List String
  feedback : Option String
deriving DecidableEq

/-- The `AppState` TypedDict: the full workflow state. -/
structure AppState where
  user_text : String
  target_audience : String
  edit_text : String
  tweet : Post
  linkedin_post : Post
  n_drafts : Nat
deriving DecidableEq

/-- Source constant `EDITOR_PROMPT`. -/
def EDITOR_PROMPT : String :=
  "\nRewrite for maximum social media engagement:\n\n- Use attention-grabbing, concise language\n- Inject personality and humor\n- Optimize formatting (short paragraphs)\n- Encourage interaction (questions, calls-to-action)\n- Ensure perfect grammar and spelling\n- Rewrite from first person perspective, when talking to an audience\n\nUse only the information provided in the text. Think carefully.\n"

/-- Source constant `TWITTER_PROMPT`. -/
def TWITTER_PROMPT : String :=
  "\nGenerate a high-engagement tweet from the given text (atleast 300 words):\n1. What problem does this solve?\n2. Focus on the main technical points/features\n3. Write a short, coherent paragraph (2-3 sentences max)\n4. Use natural, conversational language\n5. Optimize for virality: make it intriguing, relatable, or controversial\n6. Exclude emojis and hashtags\n"

/-- Source constant `TWITTER_CRITIQUE_PROMPT`. -/
def TWITTER_CRITIQUE_PROMPT : String :=
  "\nYou are a Tweet Critique Agent. Your task is to analyze tweets and provide actionable feedback to make them more engaging. Focus on:\n\n1. Clarity: Is the message clear and easy to understand?\n2. Hook: Does it grab attention in the first few words?\n3. Brevity: Is it concise while maintaining impact?\n4. Call-to-action: Does it encourage interaction or sharing?\n5. Tone: Is it appropriate for the intended audience?\n6. Storytelling: Does it evoke curiosity?\n7. Remove hype: Does it promise more than it delivers?\n\nProvide 2-3 specific suggestions to improve the tweet's engagement potential.\nDo not suggest hashtags. Keep your feedback concise and actionable.\n"

/-- Source constant `LINKEDIN_PROMPT`. -/
def LINKEDIN_PROMPT : String :=
  "\nWrite a compelling LinkedIn post from the given text (atleast 300 words). Structure it as follows:\n\n1. Eye-catching headline (5-7 words)\n2. Identify a key problem or challenge\n3. Provide a bullet list of key benefits/features\n4. Highlight a clear benefit or solution\n5. Conclude with a thought-provoking question\n\nMaintain a professional, informative tone. Avoid emojis and hashtags.\nKeep the post concise (50-80 words) and relevant to the industry.\n"

/-- Source constant `LINKEDIN_CRITIQUE_PROMPT`. -/
def LINKEDIN_CRITIQUE_PROMPT : String :=
  "\nYour role is to analyze LinkedIn posts and provide actionable feedback to make them more engaging.\nFocus on the following aspects:\n\n1. Hook: Evaluate the opening line's ability to grab attention.\n2. Structure: Assess the post's flow and readability.\n3. Content value: Determine if the post provides useful information or insights.\n4. Call-to-action: Check if there's a clear next step for readers.\n5. Language: Suggest improvements in tone, style, and word choice.\n6. Visual elements: Recommend additions or changes to images, videos, or formatting.\n\nFor each aspect, provide:\n- A brief assessment (1-2 sentences)\n- A specific suggestion for improvement\n- A concise example of the suggested change\n"

/-- Errors a workflow execution can surface.  `genFailure` models the
text-generation service failing (raising) on a call; `indexError`
models Python `drafts[-1]` on an empty list; `fuelExhausted` models the
graph engine's recursion limit (the embedding allots `n_drafts + 1`
rounds, which theorem `c8_termination` shows is never exhausted). -/
inductive WfError where
  | genFailure : WfError
  | indexError : WfError
  | fuelExhausted : WfError
deriving DecidableEq

/-- The text-generation service: call index, system instruction, user
instruction; `none` is a failure. -/
def Llm : Type := Nat → String → String → Option String

/-- User prompt of `editor_node`: the f-string
`"\ntext:\n(fence)\n{user_text}\n(fence)\n"` followed by `.strip()`. -/
def editor_user_prompt (user_text : String) : String :=
  pyStrip ("\ntext:\n```\n" ++ user_text ++ "\n```\n")

/-- Node `editor_node`: rewrites `user_text` into `edit_text`. -/
def editor_node (llm : Llm) (k : Nat) (state : AppState) : Except WfError (AppState × Nat) :=
  match llm k EDITOR_PROMPT (editor_user_prompt state.user_text) with
  | none => .error .genFailure
  | some response => .ok ({ state with edit_text := response }, k + 1)

/-- The `feedback_prompt` conditional of the writer nodes: `""` when
`not post.feedback` (Python truthiness), otherwise the stripped block
embedding `post.drafts[-1]` and `post.feedback` under the given label
("Tweet" or "LinkedIn post").  Reading `drafts[-1]` of an empty list is
an `indexError`.  `feedback_block_text` is the stripped f-string of the
truthy branch. -/
def feedback_block_text (label lastDraft feedbackText : String) : String :=
  pyStrip ("\n" ++ label ++ ":\n```\n" ++ lastDraft ++
    "\n```\n\nUse the feedback to improve it:\n```\n" ++ feedbackText ++ "\n```\n")

/-- The writer's `feedback_prompt` conditional itself. -/
def feedback_block (label : String) (post : Post) : Except WfError String :=
  if pyTruthy post.feedback then
    match post.drafts.getLast? with
    | none => .error .indexError
    | some lastDraft => .ok (feedback_block_text label lastDraft (post.feedback.getD ""))
  else .ok ""

/-- User prompt common to both writer nodes, built from `edit_text`,
the computed `feedback_prompt` and `target_audience` (f-string plus
`.strip()`). -/
def writer_user_prompt (edit_text feedback_prompt target_audience : String) : String :=
  pyStrip ("\ntext:\n```\n" ++ edit_text ++ "\n```\n\n" ++ feedback_prompt ++
    "\n\nTarget audience: " ++ target_audience ++ "\n\nWrite only the text for the post\n")

/-- Node `tweet_writer_node`: appends one new draft to `state.tweet.drafts`. -/
def tweet_writer_node (llm : Llm) (k : Nat) (state : AppState) : Except WfError (AppState × Nat) :=
  match feedback_block "Tweet" state.tweet with
  | .error e => .error e
  | .ok fb =>
    match llm k TWITTER_PROMPT (writer_user_prompt state.edit_text fb state.target_audience) with
    | none => .error .genFailure
    | some response =>
        .ok ({ state with
                tweet := { drafts := state.tweet.drafts ++ [response],
                           feedback := state.tweet.feedback } }, k + 1)

/-- Node `linkedin_writer_node`: appends one new draft to
`state.linkedin_post.drafts`. -/
def linkedin_writer_node (llm : Llm) (k : Nat) (state : AppState) : Except WfError (AppState × Nat) :=
  match feedback_block "LinkedIn post" state.linkedin_post with
  | .error e => .error e
  | .ok fb =>
    match llm k LINKEDIN_PROMPT (writer_user_prompt state.edit_text fb state.target_audience) with
    | none => .error .genFailure
    | some response =>
        .ok ({ state with
                linkedin_post := { drafts := state.linkedin_post.drafts ++ [response],
                                   feedback := state.linkedin_post.feedback } }, k + 1)

/-- User prompt of the critique nodes (f-string plus `.strip()`);
`label` is "tweet" or "LinkedIn post". -/
def critique_user_prompt (label edit_text lastDraft target_audience : String) : String :=
  pyStrip ("\nFull post:\n```\n" ++ edit_text ++ "\n```\n\nSuggested " ++ label ++
    " (critique this):\n```\n" ++ lastDraft ++ "\n```\n\nTarget audience: " ++
    target_audience ++ "\n")

/-- Node `critique_tweet_node`: overwrites `state.tweet.feedback` with a
critique of `state.tweet.drafts[-1]`. -/
def critique_tweet_node (llm : Llm) (k : Nat) (state : AppState) : Except WfError (AppState × Nat) :=
  match state.tweet.drafts.getLast? with
  | none => .error .indexError
  | some lastDraft =>
    match llm k TWITTER_CRITIQUE_PROMPT
        (critique_user_prompt "tweet" state.edit_text lastDraft state.target_audience) with
    | none => .error .genFailure
    | some response =>
        .ok ({ state with
                tweet := { drafts := state.tweet.drafts, feedback := some response } }, k + 1)

/-- Node `critique_linkedin_node`: overwrites `state.linkedin_post.feedback`
with a critique of `state.linkedin_post.drafts[-1]`. -/
def critique_linkedin_node (llm : Llm) (k : Nat) (state : AppState) : Except WfError (AppState × Nat) :=
  match state.linkedin_post.drafts.getLast? with
  | none => .error .indexError
  | some lastDraft =>
    match llm k LINKEDIN_CRITIQUE_PROMPT
        (critique_user_prompt "LinkedIn post" state.edit_text lastDraft state.target_audience) with
    | none => .error .genFailure
    | some response =>
        .ok ({ state with
                linkedin_post := { drafts := state.linkedin_post.drafts,
                                   feedback := some response } }, k + 1)

/-- Node names of the graph, as registered in `build_graph`. -/
inductive NodeName where
  | editor | tweet_writer | tweet_critique | linkedin_writer | linkedin_critique | supervisor
deriving DecidableEq

/-- Result of the conditional-routing function: `END` or a list of next
nodes. -/
inductive GateResult where
  | terminal : GateResult
  | reroute : List NodeName → GateResult
deriving DecidableEq

/-- Gate `should_rewrite`: the convergence gate.  Returns `END` when both
draft lists have reached `n_drafts`, otherwise routes to
`["linkedin_critique", "tweet_critique"]`. -/
def should_rewrite (state : AppState) : GateResult :=
  if state.n_drafts ≤ state.tweet.drafts.length ∧
      state.n_drafts ≤ state.linkedin_post.drafts.length then
    .terminal
  else
    .reroute [NodeName.linkedin_critique, NodeName.tweet_critique]

/-- Stages recorded in the execution trace (the `supervisor` node is
the identity and is merged into the gate evaluation). -/
inductive Stage where
  | editor | tweetWriter | linkedinWriter | tweetCritique | linkedinCritique
deriving DecidableEq

/-- One round of the loop body plus the gate, recursing while the gate
says `reroute`: Twitter writer, LinkedIn writer, gate; on `reroute`
both critiques and the next round.  The trace pairs each executed stage
with the state immediately after it. -/
def runRounds (llm : Llm) : Nat → Nat → AppState → Except WfError (AppState × Nat × List (Stage × AppState))
  | 0, _, _ => .error .fuelExhausted
  | fuel + 1, k, s =>
    match tweet_writer_node llm k s with
    | .error e => .error e
    | .ok (s1, k1) =>
      match linkedin_writer_node llm k1 s1 with
      | .error e => .error e
      | .ok (s2, k2) =>
        match should_rewrite s2 with
        | .terminal => .ok (s2, k2, [(Stage.tweetWriter, s1), (Stage.linkedinWriter, s2)])
        | .reroute _ =>
          match critique_tweet_node llm k2 s2 with
          | .error e => .error e
          | .ok (s3, k3) =>
            match critique_linkedin_node llm k3 s3 with
            | .error e => .error e
            | .ok (s4, k4) =>
              match runRounds llm fuel k4 s4 with
              | .error e => .error e
              | .ok (s5, k5, tr) =>
                  .ok (s5, k5, (Stage.tweetWriter, s1) :: (Stage.linkedinWriter, s2) ::
                    (Stage.tweetCritique, s3) :: (Stage.linkedinCritique, s4) :: tr)

/-- The compiled graph applied to an initial state: editor first, then
the writer/gate/critique loop.  A failing service call anywhere aborts
the whole run with an error and no state. -/
def runWorkflow (llm : Llm) (s : AppState) : Except WfError (AppState × Nat × List (Stage × AppState)) :=
  match editor_node llm 0 s with
  | .error e => .error e
  | .ok (s1, k1) =>
    match runRounds llm (s.n_drafts + 1) k1 s1 with
    | .error e => .error e
    | .ok (s2, k2, tr) => .ok (s2, k2, (Stage.editor, s1) :: tr)

/-! ### Trace predicates and helper functions -/

/-- Number of occurrences of a stage in a trace. -/
def stageCount : List (Stage × AppState) → Stage → Nat
  | [], _ => 0
  | (st2, _) :: rest, st => (if st2 == st then 1 else 0) + stageCount rest st

/-- No editor stage occurs in the trace. -/
def noEditorIn : List (Stage × AppState) → Bool
  | [] => true
  | (st, _) :: tr => (st != Stage.editor) && noEditorIn tr

/-- Every state recorded in the trace has the given `edit_text`. -/
def editTextConst (e : String) : List (Stage × AppState) → Bool
  | [] => true
  | (_, x) :: tr => (x.edit_text == e) && editTextConst e tr

/-- The first list is a prefix of the second: every previously recorded
draft keeps its value and its position. -/
def draftsExtend : List String → List String → Bool
  | [], _ => true
  | _ :: _, [] => false
  | a :: as, b :: bs => a == b && draftsExtend as bs

/-- Along the trace, each state's draft lists extend (as prefixes) the
previous state's draft lists, for both platforms. -/
def tracePrefixOK (prev : AppState) : List (Stage × AppState) → Bool
  | [] => true
  | (_, x) :: tr =>
      draftsExtend prev.tweet.drafts x.tweet.drafts &&
      draftsExtend prev.linkedin_post.drafts x.linkedin_post.drafts &&
      tracePrefixOK x tr

/-- At every point of the trace, the tweet feedback is absent exactly
when no tweet critique has yet executed (`seen` records whether one has
executed before the trace starts). -/
def tweetFbOK : Bool → List (Stage × AppState) → Bool
  | _, [] => true
  | seen, (st, x) :: tr =>
      let seen2 := seen || (st == Stage.tweetCritique)
      (x.tweet.feedback.isNone == !seen2) && tweetFbOK seen2 tr

/-- LinkedIn version of `tweetFbOK`. -/
def linkedinFbOK : Bool → List (Stage × AppState) → Bool
  | _, [] => true
  | seen, (st, x) :: tr =>
      let seen2 := seen || (st == Stage.linkedinCritique)
      (x.linkedin_post.feedback.isNone == !seen2) && linkedinFbOK seen2 tr

/-- At the `N`-th tweet-critique snapshot of the trace (counting from
`m + 1`), the tweet draft list has length exactly `m + N`, and feedback
is present. -/
def tweetCritLenOK : Nat → List (Stage × AppState) → Bool
  | _, [] => true
  | m, (st, x) :: tr =>
      if st == Stage.tweetCritique then
        (x.tweet.drafts.length == m + 1) && x.tweet.feedback.isSome && tweetCritLenOK (m + 1) tr
      else tweetCritLenOK m tr

/-- LinkedIn version of `tweetCritLenOK`. -/
def linkedinCritLenOK : Nat → List (Stage × AppState) → Bool
  | _, [] => true
  | m, (st, x) :: tr =>
      if st == Stage.linkedinCritique then
        (x.linkedin_post.drafts.length == m + 1) && x.linkedin_post.feedback.isSome &&
          linkedinCritLenOK (m + 1) tr
      else linkedinCritLenOK m tr

/-- The first list occurs at the start of the second. -/
def charsStartAt : List Char → List Char → Bool
  | [], _ => true
  | _ :: _, [] => false
  | a :: as, b :: bs => a == b && charsStartAt as bs

/-- The first list occurs contiguously somewhere in the second. -/
def charsOccurIn (needle : List Char) : List Char → Bool
  | [] => charsStartAt needle []
  | b :: bs => charsStartAt needle (b :: bs) || charsOccurIn needle bs

/-- Substring test: `needle` occurs contiguously in `hay`. -/
def strOccurs (needle hay : String) : Bool := charsOccurIn needle.data hay.data

/-! ### Concrete services and states used to instantiate the theorems -/

/-- A service that always succeeds with the fixed text `"x"`. -/
def constLlm : Llm := fun _ _ _ => some "x"

/-- A service that echoes the user instruction back, making the
constructed prompt observable in the appended draft. -/
def probeLlm : Llm := fun _ _ user => some user

/-- A service that succeeds below call `j` and fails at call `j`. -/
def failAtLlm (j : Nat) : Llm := fun k _ _ => if k == j then none else some "x"

/-- The initial state the caller builds: empty workspaces, no feedback. -/
def initState (n : Nat) : AppState :=
  { user_text := "u", target_audience := "a", edit_text := "",
    tweet := { drafts := [], feedback := none },
    linkedin_post := { drafts := [], feedback := none }, n_drafts := n }

/-- A state in which Twitter already met the target but LinkedIn did not. -/
def gateProbe : AppState :=
  { user_text := "u", target_audience := "a", edit_text := "e",
    tweet := { drafts := ["t1", "t2"], feedback := none },
    linkedin_post := { drafts := ["l1"], feedback := none }, n_drafts := 2 }

/-- A state whose tweet feedback is `some ""`: present, but falsy for
Python truthiness. -/
def emptyFeedbackState : AppState :=
  { user_text := "u", target_audience := "a", edit_text := "e",
    tweet := { drafts := ["d0"], feedback := some "" },
    linkedin_post := { drafts := [], feedback := none }, n_drafts := 3 }

/-- A state with one draft and no feedback per platform, as after the
first writer round. -/
def oneDraftState : AppState :=
  { user_text := "u", target_audience := "a", edit_text := "e",
    tweet := { drafts := ["t1"], feedback := none },
    linkedin_post := { drafts := ["l1"], feedback := none }, n_drafts := 2 }

/-- Result of running the Twitter writer on `oneDraftState` with the
constant service. -/
def oneDraftTweetOut : AppState :=
  { oneDraftState with
      tweet := { drafts := oneDraftState.tweet.drafts ++ ["x"], feedback := none } }

/-- The writer user instruction built on `emptyFeedbackState` (falsy
feedback, so no draft/feedback block). -/
def noFeedbackProbePrompt : String :=
  "text:\n```\ne\n```\n\n\n\nTarget audience: a\n\nWrite only the text for the post"

/-- Result of running the Twitter writer on `emptyFeedbackState` with
the echoing service. -/
def emptyFeedbackOut : AppState :=
  { emptyFeedbackState with
      tweet := { drafts := ["d0", noFeedbackProbePrompt], feedback := some "" } }

deriving instance DecidableEq for Except

/-- Snapshots of the run on `initState 1` with the constant service. -/
def run1Editor : AppState := { initState 1 with edit_text := "x" }

def run1AfterTweet : AppState :=
  { run1Editor with tweet := { drafts := ["x"], feedback := none } }

def run1Final : AppState :=
  { run1AfterTweet with linkedin_post := { drafts := ["x"], feedback := none } }

def run1Trace : List (Stage × AppState) :=
  [(Stage.editor, run1Editor), (Stage.tweetWriter, run1AfterTweet),
   (Stage.linkedinWriter, run1Final)]

/-- Snapshots of the run on `initState 2` with the constant service. -/
def run2E : AppState := { initState 2 with edit_text := "x" }

def run2W1 : AppState := { run2E with tweet := { drafts := ["x"], feedback := none } }

def run2W2 : AppState :=
  { run2W1 with linkedin_post := { drafts := ["x"], feedback := none } }

def run2C1 : AppState := { run2W2 with tweet := { drafts := ["x"], feedback := some "x" } }

def run2C2 : AppState :=
  { run2C1 with linkedin_post := { drafts := ["x"], feedback := some "x" } }

def run2W3 : AppState :=
  { run2C2 with tweet := { drafts := ["x", "x"], feedback := some "x" } }

def run2W4 : AppState :=
  { run2W3 with linkedin_post := { drafts := ["x", "x"], feedback := some "x" } }

def run2Trace : List (Stage × AppState) :=
  [(Stage.editor, run2E), (Stage.tweetWriter, run2W1), (Stage.linkedinWriter, run2W2),
   (Stage.tweetCritique, run2C1), (Stage.linkedinCritique, run2C2),
   (Stage.tweetWriter, run2W3), (Stage.linkedinWriter, run2W4)]

/-! ### Characterizations of the stage functions -/

/-- Success characterization of `editor_node`. -/
theorem editor_node_eq_ok {llm : Llm} {k : Nat} {s s' : AppState} {k' : Nat} :
    editor_node llm k s = .ok (s', k') ↔
      ∃ r, llm k EDITOR_PROMPT (editor_user_prompt s.user_text) = some r ∧
        s' = { s with edit_text := r } ∧ k' = k + 1 := by
  unfold editor_node
  cases h : llm k EDITOR_PROMPT (editor_user_prompt s.user_text) <;>
    simp [h, eq_comm, and_assoc]

/-- Success characterization of `tweet_writer_node`. -/
theorem tweet_writer_node_eq_ok {llm : Llm} {k : Nat} {s s' : AppState} {k' : Nat} :
    tweet_writer_node llm k s = .ok (s', k') ↔
      ∃ fb r, feedback_block "Tweet" s.tweet = .ok fb ∧
        llm k TWITTER_PROMPT (writer_user_prompt s.edit_text fb s.target_audience) = some r ∧
        s' = { s with tweet := { drafts := s.tweet.drafts ++ [r],
                                 feedback := s.tweet.feedback } } ∧
        k' = k + 1 := by
  unfold tweet_writer_node
  cases hfb : feedback_block "Tweet" s.tweet with
  | error e => simp [hfb]
  | ok fb =>
    cases h : llm k TWITTER_PROMPT (writer_user_prompt s.edit_text fb s.target_audience) <;>
      simp [hfb, h, eq_comm, and_assoc]

/-- Success characterization of `linkedin_writer_node`. -/
theorem linkedin_writer_node_eq_ok {llm : Llm} {k : Nat} {s s' : AppState} {k' : Nat} :
    linkedin_writer_node llm k s = .ok (s', k') ↔
      ∃ fb r, feedback_block "LinkedIn post" s.linkedin_post = .ok fb ∧
        llm k LINKEDIN_PROMPT (writer_user_prompt s.edit_text fb s.target_audience) = some r ∧
        s' = { s with linkedin_post := { drafts := s.linkedin_post.drafts ++ [r],
                                         feedback := s.linkedin_post.feedback } } ∧
        k' = k + 1 := by
  unfold linkedin_writer_node
  cases hfb : feedback_block "LinkedIn post" s.linkedin_post with
  | error e => simp [hfb]
  | ok fb =>
    cases h : llm k LINKEDIN_PROMPT (writer_user_prompt s.edit_text fb s.target_audience) <;>
      simp [hfb, h, eq_comm, and_assoc]

/-- Success characterization of `critique_tweet_node`. -/
theorem critique_tweet_node_eq_ok {llm : Llm} {k : Nat} {s s' : AppState} {k' : Nat} :
    critique_tweet_node llm k s = .ok (s', k') ↔
      ∃ lastDraft r, s.tweet.drafts.getLast? = some lastDraft ∧
        llm k TWITTER_CRITIQUE_PROMPT
          (critique_user_prompt "tweet" s.edit_text lastDraft s.target_audience) = some r ∧
        s' = { s with tweet := { drafts := s.tweet.drafts, feedback := some r } } ∧
        k' = k + 1 := by
  unfold critique_tweet_node
  cases hl : s.tweet.drafts.getLast? with
  | none => simp [hl]
  | some lastDraft =>
    cases h : llm k TWITTER_CRITIQUE_PROMPT
        (critique_user_prompt "tweet" s.edit_text lastDraft s.target_audience) <;>
      simp [hl, h, eq_comm, and_assoc]

/-- Success characterization of `critique_linkedin_node`. -/
theorem critique_linkedin_node_eq_ok {llm : Llm} {k : Nat} {s s' : AppState} {k' : Nat} :
    critique_linkedin_node llm k s = .ok (s', k') ↔
      ∃ lastDraft r, s.linkedin_post.drafts.getLast? = some lastDraft ∧
        llm k LINKEDIN_CRITIQUE_PROMPT
          (critique_user_prompt "LinkedIn post" s.edit_text lastDraft s.target_audience) = some r ∧
        s' = { s with linkedin_post := { drafts := s.linkedin_post.drafts,
                                         feedback := some r } } ∧
        k' = k + 1 := by
  unfold critique_linkedin_node
  cases hl : s.linkedin_post.drafts.getLast? with
  | none => simp [hl]
  | some lastDraft =>
    cases h : llm k LINKEDIN_CRITIQUE_PROMPT
        (critique_user_prompt "LinkedIn post" s.edit_text lastDraft s.target_audience) <;>
      simp [hl, h, eq_comm, and_assoc]

/-- A nonempty list has a last element. -/
theorem getLast?_isSome_of_ne_nil {l : List String} (h : l ≠ []) :
    ∃ a, l.getLast? = some a := by
  cases hl : l.getLast? with
  | none => exact absurd (List.getLast?_eq_none_iff.mp hl) h
  | some a => exact ⟨a, rfl⟩

/-- When feedback is not truthy, the feedback block is empty. -/
theorem feedback_block_of_not_truthy (label : String) (post : Post)
    (h : pyTruthy post.feedback = false) : feedback_block label post = .ok "" := by
  simp [feedback_block, h]

/-- When feedback is truthy, the feedback block embeds the last draft
and the feedback text. -/
theorem feedback_block_of_truthy (label : String) (post : Post) (lastDraft : String)
    (h : pyTruthy post.feedback = true) (hl : post.drafts.getLast? = some lastDraft) :
    feedback_block label post =
      .ok (feedback_block_text label lastDraft (post.feedback.getD "")) := by
  simp [feedback_block, h, hl]

/-- The feedback block succeeds whenever truthy feedback implies a
nonempty draft list. -/
theorem feedback_block_isOk (label : String) (post : Post)
    (h : pyTruthy post.feedback = true → post.drafts ≠ []) :
    ∃ fb, feedback_block label post = .ok fb := by
  cases ht : pyTruthy post.feedback with
  | false => exact ⟨"", feedback_block_of_not_truthy label post ht⟩
  | true =>
    obtain ⟨a, ha⟩ := getLast?_isSome_of_ne_nil (h ht)
    exact ⟨_, feedback_block_of_truthy label post a ht ha⟩

/-- The feedback block never fails with `genFailure` or
`fuelExhausted`; its only failure is `indexError`. -/
theorem feedback_block_error (label : String) (post : Post) (e : WfError)
    (h : feedback_block label post = .error e) : e = .indexError := by
  unfold feedback_block at h
  cases ht : pyTruthy post.feedback with
  | false => simp [ht] at h
  | true =>
    cases hl : post.drafts.getLast? with
    | none => simp [ht, hl] at h; exact h.symm
    | some a => simp [ht, hl] at h

/-- Destructor for a successful `runRounds` step: the two writers ran,
then the gate either terminated or both critiques ran followed by the
rest of the loop. -/
theorem runRounds_succ_ok {llm : Llm} {fuel k : Nat} {s : AppState}
    {out : AppState × Nat × List (Stage × AppState)}
    (h : runRounds llm (fuel + 1) k s = .ok out) :
    ∃ s1 k1 s2 k2, tweet_writer_node llm k s = .ok (s1, k1) ∧
      linkedin_writer_node llm k1 s1 = .ok (s2, k2) ∧
      ((should_rewrite s2 = .terminal ∧
          out = (s2, k2, [(Stage.tweetWriter, s1), (Stage.linkedinWriter, s2)])) ∨
       (should_rewrite s2 = .reroute [NodeName.linkedin_critique, NodeName.tweet_critique] ∧
        ∃ s3 k3 s4 k4 s5 k5 tr,
          critique_tweet_node llm k2 s2 = .ok (s3, k3) ∧
          critique_linkedin_node llm k3 s3 = .ok (s4, k4) ∧
          runRounds llm fuel k4 s4 = .ok (s5, k5, tr) ∧
          out = (s5, k5, (Stage.tweetWriter, s1) :: (Stage.linkedinWriter, s2) ::
            (Stage.tweetCritique, s3) :: (Stage.linkedinCritique, s4) :: tr))) := by
  rw [runRounds] at h
  cases h1 : tweet_writer_node llm k s with
  | error e => simp only [h1] at h; exact Except.noConfusion h
  | ok p1 =>
    obtain ⟨s1, k1⟩ := p1
    simp only [h1] at h
    cases h2 : linkedin_writer_node llm k1 s1 with
    | error e => simp only [h2] at h; exact Except.noConfusion h
    | ok p2 =>
      obtain ⟨s2, k2⟩ := p2
      simp only [h2] at h
      refine ⟨s1, k1, s2, k2, rfl, h2, ?_⟩
      cases hg : should_rewrite s2 with
      | terminal =>
        simp only [hg, Except.ok.injEq] at h
        exact Or.inl ⟨rfl, h.symm⟩
      | reroute l =>
        simp only [hg] at h
        have hl : l = [NodeName.linkedin_critique, NodeName.tweet_critique] := by
          unfold should_rewrite at hg
          by_cases hc : s2.n_drafts ≤ s2.tweet.drafts.length ∧
              s2.n_drafts ≤ s2.linkedin_post.drafts.length
          · simp [hc] at hg
          · simp [hc] at hg; exact hg.symm
        subst hl
        refine Or.inr ⟨rfl, ?_⟩
        cases h3 : critique_tweet_node llm k2 s2 with
        | error e => simp only [h3] at h; exact Except.noConfusion h
        | ok p3 =>
          obtain ⟨s3, k3⟩ := p3
          simp only [h3] at h
          cases h4 : critique_linkedin_node llm k3 s3 with
          | error e => simp only [h4] at h; exact Except.noConfusion h
          | ok p4 =>
            obtain ⟨s4, k4⟩ := p4
            simp only [h4] at h
            cases h5 : runRounds llm fuel k4 s4 with
            | error e => simp only [h5] at h; exact Except.noConfusion h
            | ok p5 =>
              obtain ⟨s5, k5, tr⟩ := p5
              simp only [h5, Except.ok.injEq] at h
              exact ⟨s3, k3, s4, k4, s5, k5, tr, rfl, h4, h5, h.symm⟩

/-- Inversion: a successful feedback block under truthy feedback embeds
the last draft and the feedback text. -/
theorem feedback_block_ok_truthy_inv {label : String} {post : Post} {fb : String}
    (h : feedback_block label post = .ok fb) (ht : pyTruthy post.feedback = true) :
    ∃ lastDraft, post.drafts.getLast? = some lastDraft ∧
      fb = feedback_block_text label lastDraft (post.feedback.getD "") := by
  unfold feedback_block at h
  cases hl : post.drafts.getLast? with
  | none => simp [ht, hl] at h
  | some a =>
    simp [ht, hl] at h
    exact ⟨a, rfl, h.symm⟩

/-- Inversion: a successful feedback block under falsy feedback is empty. -/
theorem feedback_block_ok_falsy_inv {label : String} {post : Post} {fb : String}
    (h : feedback_block label post = .ok fb) (ht : pyTruthy post.feedback = false) :
    fb = "" := by
  unfold feedback_block at h
  simp [ht] at h
  exact h.symm

/-! ### Claim theorems -/

/-- C1: the convergence gate returns the terminal outcome iff both
platforms' draft counts have reached `n_drafts`; in every other case it
routes both platforms to their critique stages, even when one platform
alone already reached the target. -/
theorem c1_gate_joint_and (s : AppState) :
    (should_rewrite s = GateResult.terminal ↔
      (s.n_drafts ≤ s.tweet.drafts.length ∧ s.n_drafts ≤ s.linkedin_post.drafts.length)) ∧
    (¬(s.n_drafts ≤ s.tweet.drafts.length ∧ s.n_drafts ≤ s.linkedin_post.drafts.length) →
      should_rewrite s = GateResult.reroute [NodeName.linkedin_critique, NodeName.tweet_critique]) := by
  unfold should_rewrite
  by_cases hc : s.n_drafts ≤ s.tweet.drafts.length ∧ s.n_drafts ≤ s.linkedin_post.drafts.length <;>
    simp [hc]

/-- C1 witness: with Twitter at its target (2 of 2) but LinkedIn behind
(1 of 2), the gate still reroutes both platforms to critique. -/
theorem c1_gate_witness :
    should_rewrite gateProbe =
      GateResult.reroute [NodeName.linkedin_critique, NodeName.tweet_critique] :=
  (c1_gate_joint_and gateProbe).2 (by decide)

/-- C9: every stage mutates only its own slice of the state: the editor
only `edit_text`, Twitter stages only `tweet`, LinkedIn stages only
`linkedin_post`; `user_text`, `target_audience` and `n_drafts` are
never mutated. -/
theorem c9_frame_conditions (llm : Llm) (k k' : Nat) (s s' : AppState) :
    (editor_node llm k s = .ok (s', k') →
      s'.user_text = s.user_text ∧ s'.target_audience = s.target_audience ∧
      s'.tweet = s.tweet ∧ s'.linkedin_post = s.linkedin_post ∧ s'.n_drafts = s.n_drafts) ∧
    (tweet_writer_node llm k s = .ok (s', k') →
      s'.user_text = s.user_text ∧ s'.target_audience = s.target_audience ∧
      s'.edit_text = s.edit_text ∧ s'.linkedin_post = s.linkedin_post ∧
      s'.n_drafts = s.n_drafts) ∧
    (linkedin_writer_node llm k s = .ok (s', k') →
      s'.user_text = s.user_text ∧ s'.target_audience = s.target_audience ∧
      s'.edit_text = s.edit_text ∧ s'.tweet = s.tweet ∧ s'.n_drafts = s.n_drafts) ∧
    (critique_tweet_node llm k s = .ok (s', k') →
      s'.user_text = s.user_text ∧ s'.target_audience = s.target_audience ∧
      s'.edit_text = s.edit_text ∧ s'.linkedin_post = s.linkedin_post ∧
      s'.n_drafts = s.n_drafts) ∧
    (critique_linkedin_node llm k s = .ok (s', k') →
      s'.user_text = s.user_text ∧ s'.target_audience = s.target_audience ∧
      s'.edit_text = s.edit_text ∧ s'.tweet = s.tweet ∧ s'.n_drafts = s.n_drafts) := by
  refine ⟨?_, ?_, ?_, ?_, ?_⟩ <;> intro h
  · obtain ⟨r, _, hs, _⟩ := editor_node_eq_ok.mp h
    subst hs; simp
  · obtain ⟨fb, r, _, _, hs, _⟩ := tweet_writer_node_eq_ok.mp h
    subst hs; simp
  · obtain ⟨fb, r, _, _, hs, _⟩ := linkedin_writer_node_eq_ok.mp h
    subst hs; simp
  · obtain ⟨lastDraft, r, _, _, hs, _⟩ := critique_tweet_node_eq_ok.mp h
    subst hs; simp
  · obtain ⟨lastDraft, r, _, _, hs, _⟩ := critique_linkedin_node_eq_ok.mp h
    subst hs; simp

/-- C9 witness: the editor conjunct applied to a concrete run of the
editor stage on `gateProbe` with the constant service. -/
theorem c9_witness :
    ({ gateProbe with edit_text := "x" } : AppState).user_text = gateProbe.user_text ∧
    ({ gateProbe with edit_text := "x" } : AppState).target_audience = gateProbe.target_audience ∧
    ({ gateProbe with edit_text := "x" } : AppState).tweet = gateProbe.tweet ∧
    ({ gateProbe with edit_text := "x" } : AppState).linkedin_post = gateProbe.linkedin_post ∧
    ({ gateProbe with edit_text := "x" } : AppState).n_drafts = gateProbe.n_drafts :=
  (c9_frame_conditions constLlm 0 1 gateProbe { gateProbe with edit_text := "x" }).1 rfl

/-- C5 (amended): each writer invocation constructs its user
instruction from the edited text and the target audience, includes the
workspace's most recent draft together with its feedback (framed as
revise-using-this-feedback) if and only if the feedback is present and
non-empty (Python truthiness), and appends exactly one new draft to the
end of that workspace's draft list. -/
theorem c5_writer_instruction (llm : Llm) (k k' : Nat) (s s' : AppState) :
    (tweet_writer_node llm k s = .ok (s', k') →
      ∃ fb r, feedback_block "Tweet" s.tweet = .ok fb ∧
        llm k TWITTER_PROMPT (writer_user_prompt s.edit_text fb s.target_audience) = some r ∧
        s'.tweet.drafts = s.tweet.drafts ++ [r] ∧
        s'.tweet.feedback = s.tweet.feedback ∧
        (pyTruthy s.tweet.feedback = false → fb = "") ∧
        (pyTruthy s.tweet.feedback = true →
          ∃ lastDraft, s.tweet.drafts.getLast? = some lastDraft ∧
            fb = feedback_block_text "Tweet" lastDraft (s.tweet.feedback.getD ""))) ∧
    (linkedin_writer_node llm k s = .ok (s', k') →
      ∃ fb r, feedback_block "LinkedIn post" s.linkedin_post = .ok fb ∧
        llm k LINKEDIN_PROMPT (writer_user_prompt s.edit_text fb s.target_audience) = some r ∧
        s'.linkedin_post.drafts = s.linkedin_post.drafts ++ [r] ∧
        s'.linkedin_post.feedback = s.linkedin_post.feedback ∧
        (pyTruthy s.linkedin_post.feedback = false → fb = "") ∧
        (pyTruthy s.linkedin_post.feedback = true →
          ∃ lastDraft, s.linkedin_post.drafts.getLast? = some lastDraft ∧
            fb = feedback_block_text "LinkedIn post" lastDraft
              (s.linkedin_post.feedback.getD ""))) := by
  constructor <;> intro h
  · obtain ⟨fb, r, hfb, hllm, hs, hk⟩ := tweet_writer_node_eq_ok.mp h
    subst hs
    refine ⟨fb, r, hfb, hllm, by simp, by simp, ?_, ?_⟩
    · intro ht; exact feedback_block_ok_falsy_inv hfb ht
    · intro ht; exact feedback_block_ok_truthy_inv hfb ht
  · obtain ⟨fb, r, hfb, hllm, hs, hk⟩ := linkedin_writer_node_eq_ok.mp h
    subst hs
    refine ⟨fb, r, hfb, hllm, by simp, by simp, ?_, ?_⟩
    · intro ht; exact feedback_block_ok_falsy_inv hfb ht
    · intro ht; exact feedback_block_ok_truthy_inv hfb ht

/-- C5 counterexample to the claim as stated: in `emptyFeedbackState`
the tweet feedback is present (`some ""`), yet the writer's constructed
user instruction — observable as the appended draft under the echoing
service — contains neither the most recent draft `"d0"` nor the
revise-using-this-feedback framing, because the code tests Python
truthiness (`if not post.feedback`), not presence. -/
theorem c5_counterexample :
    emptyFeedbackState.tweet.feedback.isSome = true ∧
    tweet_writer_node probeLlm 0 emptyFeedbackState = .ok (emptyFeedbackOut, 1) ∧
    strOccurs "d0" noFeedbackProbePrompt = false ∧
    strOccurs "Use the feedback to improve it" noFeedbackProbePrompt = false :=
  ⟨rfl, by decide, by decide, by decide⟩

/-- C5 witness: the amended theorem applied to a concrete successful
writer invocation on `oneDraftState` with the constant service. -/
theorem c5_witness :
    ∃ fb r, feedback_block "Tweet" oneDraftState.tweet = .ok fb ∧
      constLlm 0 TWITTER_PROMPT
        (writer_user_prompt oneDraftState.edit_text fb oneDraftState.target_audience) = some r ∧
      oneDraftTweetOut.tweet.drafts = oneDraftState.tweet.drafts ++ [r] ∧
      oneDraftTweetOut.tweet.feedback = oneDraftState.tweet.feedback ∧
      (pyTruthy oneDraftState.tweet.feedback = false → fb = "") ∧
      (pyTruthy oneDraftState.tweet.feedback = true →
        ∃ lastDraft, oneDraftState.tweet.drafts.getLast? = some lastDraft ∧
          fb = feedback_block_text "Tweet" lastDraft
            (oneDraftState.tweet.feedback.getD "")) :=
  (c5_writer_instruction constLlm 0 1 oneDraftState oneDraftTweetOut).1 rfl

/-- Relation `draftsExtend` is reflexive. -/
theorem draftsExtend_refl : ∀ l : List String, draftsExtend l l = true
  | [] => rfl
  | a :: as => by simp [draftsExtend, draftsExtend_refl as]

/-- Appending preserves the prefix relation. -/
theorem draftsExtend_append : ∀ (l r : List String), draftsExtend l (l ++ r) = true
  | [], _ => rfl
  | a :: as, r => by simp [draftsExtend, draftsExtend_append as r]

/-- Relation `draftsExtend` is transitive. -/
theorem draftsExtend_trans : ∀ {a b c : List String}, draftsExtend a b = true →
    draftsExtend b c = true → draftsExtend a c = true
  | [], _, _, _, _ => rfl
  | x :: xs, [], _, h1, _ => by simp [draftsExtend] at h1
  | x :: xs, y :: ys, [], _, h2 => by simp [draftsExtend] at h2
  | x :: xs, y :: ys, z :: zs, h1, h2 => by
    simp only [draftsExtend, Bool.and_eq_true, beq_iff_eq] at h1 h2 ⊢
    exact ⟨h1.1.trans h2.1, draftsExtend_trans h1.2 h2.2⟩

/-- Run-level invariants of the loop: the trace contains no editor
stage, `edit_text` is constant along it, and both platforms' draft
lists only ever grow by extension along the trace and from entry to
final state. -/
theorem runRounds_trace_inv (llm : Llm) :
    ∀ fuel k s s' k' tr, runRounds llm fuel k s = .ok (s', k', tr) →
      noEditorIn tr = true ∧
      editTextConst s.edit_text tr = true ∧
      s'.edit_text = s.edit_text ∧
      tracePrefixOK s tr = true ∧
      draftsExtend s.tweet.drafts s'.tweet.drafts = true ∧
      draftsExtend s.linkedin_post.drafts s'.linkedin_post.drafts = true := by
  intro fuel
  induction fuel with
  | zero =>
    intro k s s' k' tr h
    rw [runRounds] at h
    exact Except.noConfusion h
  | succ fuel ih =>
    intro k s s' k' tr h
    obtain ⟨s1, k1, s2, k2, h1, h2, hrest⟩ := runRounds_succ_ok h
    obtain ⟨fb1, r1, hfb1, hllm1, hs1, hk1⟩ := tweet_writer_node_eq_ok.mp h1
    obtain ⟨fb2, r2, hfb2, hllm2, hs2, hk2⟩ := linkedin_writer_node_eq_ok.mp h2
    subst hs1
    subst hs2
    rcases hrest with ⟨hg, hout⟩ | ⟨hg, s3, k3, s4, k4, s5, k5, tr', h3, h4, h5, hout⟩
    · simp only [Prod.mk.injEq] at hout
      obtain ⟨rfl, rfl, rfl⟩ := hout
      refine ⟨by simp [noEditorIn], by simp [editTextConst], rfl, ?_, ?_, ?_⟩
      · simp [tracePrefixOK, draftsExtend_append, draftsExtend_refl]
      · exact draftsExtend_append _ _
      · exact draftsExtend_append _ _
    · obtain ⟨last3, r3, hgl3, hllm3, hs3, hk3⟩ := critique_tweet_node_eq_ok.mp h3
      obtain ⟨last4, r4, hgl4, hllm4, hs4, hk4⟩ := critique_linkedin_node_eq_ok.mp h4
      subst hs3
      subst hs4
      simp only [Prod.mk.injEq] at hout
      obtain ⟨rfl, rfl, rfl⟩ := hout
      obtain ⟨ihA, ihB, ihC, ihD, ihE, ihF⟩ := ih _ _ _ _ _ h5
      simp only at ihB ihC ihD ihE ihF
      refine ⟨?_, ?_, ?_, ?_, ?_, ?_⟩
      · simp [noEditorIn, ihA]
      · simp [editTextConst, ihB]
      · simpa using ihC
      · simp [tracePrefixOK, draftsExtend_append, draftsExtend_refl, ihD]
      · exact draftsExtend_trans (draftsExtend_append _ _) (by simpa using ihE)
      · exact draftsExtend_trans (draftsExtend_append _ _) (by simpa using ihF)

/-- Destructor for a successful full run: the editor ran first, then
the loop, and the trace is the editor snapshot followed by the loop
trace. -/
theorem runWorkflow_ok_inv {llm : Llm} {s s' : AppState} {k' : Nat}
    {tr : List (Stage × AppState)}
    (h : runWorkflow llm s = .ok (s', k', tr)) :
    ∃ s1 k1 rest, editor_node llm 0 s = .ok (s1, k1) ∧
      runRounds llm (s.n_drafts + 1) k1 s1 = .ok (s', k', rest) ∧
      tr = (Stage.editor, s1) :: rest := by
  unfold runWorkflow at h
  cases h0 : editor_node llm 0 s with
  | error e => simp only [h0] at h; exact Except.noConfusion h
  | ok p =>
    obtain ⟨s1, k1⟩ := p
    simp only [h0] at h
    cases hr : runRounds llm (s.n_drafts + 1) k1 s1 with
    | error e => simp only [hr] at h; exact Except.noConfusion h
    | ok q =>
      obtain ⟨s2, k2, rest⟩ := q
      simp only [hr, Except.ok.injEq, Prod.mk.injEq] at h
      obtain ⟨rfl, rfl, rfl⟩ := h
      exact ⟨s1, k1, rest, rfl, hr, rfl⟩

/-- No editor in the trace means its stage count is zero. -/
theorem stageCount_editor_zero : ∀ {tr : List (Stage × AppState)},
    noEditorIn tr = true → stageCount tr Stage.editor = 0
  | [], _ => rfl
  | (st, x) :: tr, h => by
    simp only [noEditorIn, Bool.and_eq_true, bne_iff_ne] at h
    have hst : (st == Stage.editor) = false := by
      cases hb : st == Stage.editor with
      | false => rfl
      | true => exact absurd (eq_of_beq hb) h.1
    simp [stageCount, hst, stageCount_editor_zero h.2]

/-- C3: in every successful run the editor stage executes exactly once,
as the first stage, strictly before any writer or critique stage; and
`edit_text`, once set by the editor, is never modified again: it is
constant along the rest of the trace and in the final state. -/
theorem c3_editor_once_first (llm : Llm) (s s' : AppState) (k' : Nat)
    (tr : List (Stage × AppState)) (h : runWorkflow llm s = .ok (s', k', tr)) :
    ∃ s1 rest, tr = (Stage.editor, s1) :: rest ∧
      noEditorIn rest = true ∧
      stageCount tr Stage.editor = 1 ∧
      editTextConst s1.edit_text rest = true ∧
      s'.edit_text = s1.edit_text := by
  obtain ⟨s1, k1, rest, h0, hr, rfl⟩ := runWorkflow_ok_inv h
  obtain ⟨hA, hB, hC, _, _, _⟩ := runRounds_trace_inv llm _ _ _ _ _ _ hr
  exact ⟨s1, rest, rfl, hA, by simp [stageCount, stageCount_editor_zero hA], hB, hC⟩

/-- C3 witness: the theorem applied to the concrete two-platform run on
`initState 1` with the constant service. -/
theorem c3_witness :
    ∃ s1 rest, run1Trace = (Stage.editor, s1) :: rest ∧
      noEditorIn rest = true ∧
      stageCount run1Trace Stage.editor = 1 ∧
      editTextConst s1.edit_text rest = true ∧
      run1Final.edit_text = s1.edit_text :=
  c3_editor_once_first constLlm (initState 1) run1Final 3 run1Trace rfl

/-- C7: draft lists are append-only.  In every successful run, every
recorded state extends the previous state's draft lists as a prefix
(no draft is removed, edited, reordered or truncated), the final state
extends the initial one; and at stage level the writers are the only
operations that grow a draft list (by exactly one element at the end),
while editor and critiques leave both draft lists unchanged. -/
theorem c7_drafts_append_only (llm : Llm) (s s' x y : AppState) (k' k2 k2' : Nat)
    (tr : List (Stage × AppState)) (h : runWorkflow llm s = .ok (s', k', tr)) :
    (tracePrefixOK s tr = true ∧
     draftsExtend s.tweet.drafts s'.tweet.drafts = true ∧
     draftsExtend s.linkedin_post.drafts s'.linkedin_post.drafts = true) ∧
    (tweet_writer_node llm k2 x = .ok (y, k2') →
      (∃ r, y.tweet.drafts = x.tweet.drafts ++ [r]) ∧
      y.linkedin_post.drafts = x.linkedin_post.drafts) ∧
    (linkedin_writer_node llm k2 x = .ok (y, k2') →
      (∃ r, y.linkedin_post.drafts = x.linkedin_post.drafts ++ [r]) ∧
      y.tweet.drafts = x.tweet.drafts) ∧
    (critique_tweet_node llm k2 x = .ok (y, k2') →
      y.tweet.drafts = x.tweet.drafts ∧ y.linkedin_post.drafts = x.linkedin_post.drafts) ∧
    (critique_linkedin_node llm k2 x = .ok (y, k2') →
      y.tweet.drafts = x.tweet.drafts ∧ y.linkedin_post.drafts = x.linkedin_post.drafts) ∧
    (editor_node llm k2 x = .ok (y, k2') →
      y.tweet.drafts = x.tweet.drafts ∧ y.linkedin_post.drafts = x.linkedin_post.drafts) := by
  obtain ⟨s1, k1, rest, h0, hr, rfl⟩ := runWorkflow_ok_inv h
  obtain ⟨r0, hllm0, hs0, hk0⟩ := editor_node_eq_ok.mp h0
  obtain ⟨_, _, _, hD, hE, hF⟩ := runRounds_trace_inv llm _ _ _ _ _ _ hr
  subst hs0
  refine ⟨⟨?_, by simpa using hE, by simpa using hF⟩, ?_, ?_, ?_, ?_, ?_⟩
  · simp [tracePrefixOK, draftsExtend_refl]
    simpa using hD
  · intro hw
    obtain ⟨fb, r, _, _, hy, _⟩ := tweet_writer_node_eq_ok.mp hw
    subst hy; exact ⟨⟨r, by simp⟩, by simp⟩
  · intro hw
    obtain ⟨fb, r, _, _, hy, _⟩ := linkedin_writer_node_eq_ok.mp hw
    subst hy; exact ⟨⟨r, by simp⟩, by simp⟩
  · intro hw
    obtain ⟨lastDraft, r, _, _, hy, _⟩ := critique_tweet_node_eq_ok.mp hw
    subst hy; exact ⟨by simp, by simp⟩
  · intro hw
    obtain ⟨lastDraft, r, _, _, hy, _⟩ := critique_linkedin_node_eq_ok.mp hw
    subst hy; exact ⟨by simp, by simp⟩
  · intro hw
    obtain ⟨r, _, hy, _⟩ := editor_node_eq_ok.mp hw
    subst hy; exact ⟨by simp, by simp⟩

/-- C7 witness: the run-level part of the theorem applied to the
concrete run on `initState 2`, whose hypotheses are discharged by
computation. -/
theorem c7_witness :
    tracePrefixOK (initState 2) run2Trace = true ∧
    draftsExtend (initState 2).tweet.drafts run2W4.tweet.drafts = true ∧
    draftsExtend (initState 2).linkedin_post.drafts run2W4.linkedin_post.drafts = true :=
  (c7_drafts_append_only constLlm (initState 2) run2W4 (initState 2) (initState 2)
    7 0 0 run2Trace rfl).1

/-- Comparison of stages computes. -/
@[simp] theorem stage_beq_decide (a b : Stage) : (a == b) = decide (a = b) := rfl

/-- Loop invariant: at every point of the loop trace, each platform's
feedback is absent exactly when no critique for that platform has yet
executed. -/
theorem runRounds_feedback_inv (llm : Llm) :
    ∀ fuel k s s' k' tr, runRounds llm fuel k s = .ok (s', k', tr) →
      ∀ seenT seenL, s.tweet.feedback.isNone = !seenT →
        s.linkedin_post.feedback.isNone = !seenL →
        tweetFbOK seenT tr = true ∧ linkedinFbOK seenL tr = true := by
  intro fuel
  induction fuel with
  | zero =>
    intro k s s' k' tr h
    rw [runRounds] at h
    exact Except.noConfusion h
  | succ fuel ih =>
    intro k s s' k' tr h seenT seenL hT hL
    obtain ⟨s1, k1, s2, k2, h1, h2, hrest⟩ := runRounds_succ_ok h
    obtain ⟨fb1, r1, hfb1, hllm1, hs1, hk1⟩ := tweet_writer_node_eq_ok.mp h1
    obtain ⟨fb2, r2, hfb2, hllm2, hs2, hk2⟩ := linkedin_writer_node_eq_ok.mp h2
    subst hs1
    subst hs2
    rcases hrest with ⟨hg, hout⟩ | ⟨hg, s3, k3, s4, k4, s5, k5, tr', h3, h4, h5, hout⟩
    · simp only [Prod.mk.injEq] at hout
      obtain ⟨rfl, rfl, rfl⟩ := hout
      constructor
      · simp [tweetFbOK, hT]
      · simp [linkedinFbOK, hL]
    · obtain ⟨last3, r3, hgl3, hllm3, hs3, hk3⟩ := critique_tweet_node_eq_ok.mp h3
      obtain ⟨last4, r4, hgl4, hllm4, hs4, hk4⟩ := critique_linkedin_node_eq_ok.mp h4
      subst hs3
      subst hs4
      simp only [Prod.mk.injEq] at hout
      obtain ⟨rfl, rfl, rfl⟩ := hout
      obtain ⟨ihT, ihL⟩ := ih _ _ _ _ _ h5 true true (by simp) (by simp)
      constructor
      · simp [tweetFbOK, hT, ihT]
      · simp [linkedinFbOK, hL, ihL]

/-- Loop invariant: at the `N`-th critique snapshot for a platform, the
platform's draft list has length (entry length plus `N`), and the
feedback just written is present. -/
theorem runRounds_critlen_inv (llm : Llm) :
    ∀ fuel k s s' k' tr, runRounds llm fuel k s = .ok (s', k', tr) →
      tweetCritLenOK s.tweet.drafts.length tr = true ∧
      linkedinCritLenOK s.linkedin_post.drafts.length tr = true := by
  intro fuel
  induction fuel with
  | zero =>
    intro k s s' k' tr h
    rw [runRounds] at h
    exact Except.noConfusion h
  | succ fuel ih =>
    intro k s s' k' tr h
    obtain ⟨s1, k1, s2, k2, h1, h2, hrest⟩ := runRounds_succ_ok h
    obtain ⟨fb1, r1, hfb1, hllm1, hs1, hk1⟩ := tweet_writer_node_eq_ok.mp h1
    obtain ⟨fb2, r2, hfb2, hllm2, hs2, hk2⟩ := linkedin_writer_node_eq_ok.mp h2
    subst hs1
    subst hs2
    rcases hrest with ⟨hg, hout⟩ | ⟨hg, s3, k3, s4, k4, s5, k5, tr', h3, h4, h5, hout⟩
    · simp only [Prod.mk.injEq] at hout
      obtain ⟨rfl, rfl, rfl⟩ := hout
      constructor
      · simp [tweetCritLenOK]
      · simp [linkedinCritLenOK]
    · obtain ⟨last3, r3, hgl3, hllm3, hs3, hk3⟩ := critique_tweet_node_eq_ok.mp h3
      obtain ⟨last4, r4, hgl4, hllm4, hs4, hk4⟩ := critique_linkedin_node_eq_ok.mp h4
      subst hs3
      subst hs4
      simp only [Prod.mk.injEq] at hout
      obtain ⟨rfl, rfl, rfl⟩ := hout
      obtain ⟨ihT, ihL⟩ := ih _ _ _ _ _ h5
      simp only [List.length_append, List.length_cons, List.length_nil] at ihT ihL
      constructor
      · simp [tweetCritLenOK, List.length_append]
        simpa using ihT
      · simp [linkedinCritLenOK, List.length_append]
        simpa using ihL

/-- C6: for each platform, feedback is absent iff zero critiques have
occurred for that platform so far in the run; each critique invocation
overwrites (never appends to) feedback with a critique of the draft at
the last position of the draft list at the time of the call; and at the
`N`-th critique snapshot the platform's draft list has length exactly
`N` with the freshly written feedback present. -/
theorem c6_feedback_lifecycle (llm : Llm) (s s' x y : AppState) (k' k2 k2' : Nat)
    (tr : List (Stage × AppState))
    (h : runWorkflow llm s = .ok (s', k', tr))
    (hft : s.tweet.feedback = none) (hfl : s.linkedin_post.feedback = none)
    (hdt : s.tweet.drafts = []) (hdl : s.linkedin_post.drafts = []) :
    tweetFbOK false tr = true ∧
    linkedinFbOK false tr = true ∧
    tweetCritLenOK 0 tr = true ∧
    linkedinCritLenOK 0 tr = true ∧
    (critique_tweet_node llm k2 x = .ok (y, k2') →
      ∃ lastDraft r, x.tweet.drafts.getLast? = some lastDraft ∧
        llm k2 TWITTER_CRITIQUE_PROMPT
          (critique_user_prompt "tweet" x.edit_text lastDraft x.target_audience) = some r ∧
        y.tweet.feedback = some r ∧ y.tweet.drafts = x.tweet.drafts) ∧
    (critique_linkedin_node llm k2 x = .ok (y, k2') →
      ∃ lastDraft r, x.linkedin_post.drafts.getLast? = some lastDraft ∧
        llm k2 LINKEDIN_CRITIQUE_PROMPT
          (critique_user_prompt "LinkedIn post" x.edit_text lastDraft x.target_audience) = some r ∧
        y.linkedin_post.feedback = some r ∧ y.linkedin_post.drafts = x.linkedin_post.drafts) := by
  obtain ⟨s1, k1, rest, h0, hr, rfl⟩ := runWorkflow_ok_inv h
  obtain ⟨r0, hllm0, hs0, hk0⟩ := editor_node_eq_ok.mp h0
  subst hs0
  obtain ⟨hT, hL⟩ := runRounds_feedback_inv llm _ _ _ _ _ _ hr false false
    (by simp [hft]) (by simp [hfl])
  obtain ⟨hCT, hCL⟩ := runRounds_critlen_inv llm _ _ _ _ _ _ hr
  simp only [hdt, hdl, List.length_nil] at hCT hCL
  refine ⟨?_, ?_, ?_, ?_, ?_, ?_⟩
  · simp [tweetFbOK, hft, hT]
  · simp [linkedinFbOK, hfl, hL]
  · simp [tweetCritLenOK, hCT]
  · simp [linkedinCritLenOK, hCL]
  · intro hc
    obtain ⟨lastDraft, r, hgl, hllm, hy, _⟩ := critique_tweet_node_eq_ok.mp hc
    subst hy
    exact ⟨lastDraft, r, hgl, hllm, by simp, by simp⟩
  · intro hc
    obtain ⟨lastDraft, r, hgl, hllm, hy, _⟩ := critique_linkedin_node_eq_ok.mp hc
    subst hy
    exact ⟨lastDraft, r, hgl, hllm, by simp, by simp⟩

/-- C6 witness: the run-level feedback lifecycle evaluated on the
concrete two-round run on `initState 2`, with the node-level overwrite
conjunct instantiated at the concrete first tweet critique. -/
theorem c6_witness :
    tweetFbOK false run2Trace = true ∧
    linkedinFbOK false run2Trace = true ∧
    tweetCritLenOK 0 run2Trace = true ∧
    linkedinCritLenOK 0 run2Trace = true ∧
    (critique_tweet_node constLlm 3 run2W2 = .ok (run2C1, 4) →
      ∃ lastDraft r, run2W2.tweet.drafts.getLast? = some lastDraft ∧
        constLlm 3 TWITTER_CRITIQUE_PROMPT
          (critique_user_prompt "tweet" run2W2.edit_text lastDraft run2W2.target_audience) =
            some r ∧
        run2C1.tweet.feedback = some r ∧ run2C1.tweet.drafts = run2W2.tweet.drafts) ∧
    (critique_linkedin_node constLlm 3 run2W2 = .ok (run2C1, 4) →
      ∃ lastDraft r, run2W2.linkedin_post.drafts.getLast? = some lastDraft ∧
        constLlm 3 LINKEDIN_CRITIQUE_PROMPT
          (critique_user_prompt "LinkedIn post" run2W2.edit_text lastDraft
            run2W2.target_audience) = some r ∧
        run2C1.linkedin_post.feedback = some r ∧
        run2C1.linkedin_post.drafts = run2W2.linkedin_post.drafts) :=
  c6_feedback_lifecycle constLlm (initState 2) run2W4 run2W2 run2C1 7 3 4 run2Trace
    rfl rfl rfl rfl rfl

/-- The editor can only fail with a service failure. -/
theorem editor_node_error {llm : Llm} {k : Nat} {s : AppState} {e : WfError}
    (h : editor_node llm k s = .error e) : e = .genFailure := by
  unfold editor_node at h
  cases hllm : llm k EDITOR_PROMPT (editor_user_prompt s.user_text) with
  | none => simp only [hllm] at h; injection h with h2; exact h2.symm
  | some r => simp only [hllm] at h; exact Except.noConfusion h

/-- Under the guard invariant, a failing Twitter writer can only be a
service failure, never an index error. -/
theorem tweet_writer_node_error {llm : Llm} {k : Nat} {s : AppState} {e : WfError}
    (h : tweet_writer_node llm k s = .error e)
    (hsafe : pyTruthy s.tweet.feedback = true → s.tweet.drafts ≠ []) : e = .genFailure := by
  obtain ⟨fb, hfb⟩ := feedback_block_isOk "Tweet" s.tweet hsafe
  unfold tweet_writer_node at h
  rw [hfb] at h
  cases hllm : llm k TWITTER_PROMPT (writer_user_prompt s.edit_text fb s.target_audience) with
  | none => simp only [hllm] at h; injection h with h2; exact h2.symm
  | some r => simp only [hllm] at h; exact Except.noConfusion h

/-- Under the guard invariant, a failing LinkedIn writer can only be a
service failure, never an index error. -/
theorem linkedin_writer_node_error {llm : Llm} {k : Nat} {s : AppState} {e : WfError}
    (h : linkedin_writer_node llm k s = .error e)
    (hsafe : pyTruthy s.linkedin_post.feedback = true → s.linkedin_post.drafts ≠ []) :
    e = .genFailure := by
  obtain ⟨fb, hfb⟩ := feedback_block_isOk "LinkedIn post" s.linkedin_post hsafe
  unfold linkedin_writer_node at h
  rw [hfb] at h
  cases hllm : llm k LINKEDIN_PROMPT (writer_user_prompt s.edit_text fb s.target_audience) with
  | none => simp only [hllm] at h; injection h with h2; exact h2.symm
  | some r => simp only [hllm] at h; exact Except.noConfusion h

/-- With a nonempty draft list, a failing tweet critique can only be a
service failure. -/
theorem critique_tweet_node_error {llm : Llm} {k : Nat} {s : AppState} {e : WfError}
    (h : critique_tweet_node llm k s = .error e) (hne : s.tweet.drafts ≠ []) :
    e = .genFailure := by
  obtain ⟨lastDraft, hgl⟩ := getLast?_isSome_of_ne_nil hne
  unfold critique_tweet_node at h
  rw [hgl] at h
  cases hllm : llm k TWITTER_CRITIQUE_PROMPT
      (critique_user_prompt "tweet" s.edit_text lastDraft s.target_audience) with
  | none => simp only [hllm] at h; injection h with h2; exact h2.symm
  | some r => simp only [hllm] at h; exact Except.noConfusion h

/-- With a nonempty draft list, a failing LinkedIn critique can only be
a service failure. -/
theorem critique_linkedin_node_error {llm : Llm} {k : Nat} {s : AppState} {e : WfError}
    (h : critique_linkedin_node llm k s = .error e) (hne : s.linkedin_post.drafts ≠ []) :
    e = .genFailure := by
  obtain ⟨lastDraft, hgl⟩ := getLast?_isSome_of_ne_nil hne
  unfold critique_linkedin_node at h
  rw [hgl] at h
  cases hllm : llm k LINKEDIN_CRITIQUE_PROMPT
      (critique_user_prompt "LinkedIn post" s.edit_text lastDraft s.target_audience) with
  | none => simp only [hllm] at h; injection h with h2; exact h2.symm
  | some r => simp only [hllm] at h; exact Except.noConfusion h

/-- Destructor for a failing `runRounds` step: the error is raised by
the first stage that fails, in execution order, or arises from the
recursive rest of the loop. -/
theorem runRounds_succ_error {llm : Llm} {fuel k : Nat} {s : AppState} {e : WfError}
    (h : runRounds llm (fuel + 1) k s = .error e) :
    tweet_writer_node llm k s = .error e ∨
    (∃ s1 k1, tweet_writer_node llm k s = .ok (s1, k1) ∧
      (linkedin_writer_node llm k1 s1 = .error e ∨
       (∃ s2 k2, linkedin_writer_node llm k1 s1 = .ok (s2, k2) ∧
         should_rewrite s2 = .reroute [NodeName.linkedin_critique, NodeName.tweet_critique] ∧
         (critique_tweet_node llm k2 s2 = .error e ∨
          (∃ s3 k3, critique_tweet_node llm k2 s2 = .ok (s3, k3) ∧
            (critique_linkedin_node llm k3 s3 = .error e ∨
             (∃ s4 k4, critique_linkedin_node llm k3 s3 = .ok (s4, k4) ∧
               runRounds llm fuel k4 s4 = .error e))))))) := by
  rw [runRounds] at h
  cases h1 : tweet_writer_node llm k s with
  | error e1 =>
    simp only [h1] at h
    injection h with h2
    subst h2
    exact Or.inl rfl
  | ok p1 =>
    obtain ⟨s1, k1⟩ := p1
    simp only [h1] at h
    refine Or.inr ⟨s1, k1, rfl, ?_⟩
    cases h2 : linkedin_writer_node llm k1 s1 with
    | error e2 =>
      simp only [h2] at h
      injection h with h2'
      subst h2'
      exact Or.inl rfl
    | ok p2 =>
      obtain ⟨s2, k2⟩ := p2
      simp only [h2] at h
      refine Or.inr ⟨s2, k2, rfl, ?_⟩
      cases hg : should_rewrite s2 with
      | terminal => simp only [hg] at h; exact Except.noConfusion h
      | reroute l =>
        simp only [hg] at h
        have hl : l = [NodeName.linkedin_critique, NodeName.tweet_critique] := by
          unfold should_rewrite at hg
          by_cases hc : s2.n_drafts ≤ s2.tweet.drafts.length ∧
              s2.n_drafts ≤ s2.linkedin_post.drafts.length
          · simp [hc] at hg
          · simp [hc] at hg; exact hg.symm
        subst hl
        refine ⟨rfl, ?_⟩
        cases h3 : critique_tweet_node llm k2 s2 with
        | error e3 =>
          simp only [h3] at h
          injection h with h3'
          subst h3'
          exact Or.inl rfl
        | ok p3 =>
          obtain ⟨s3, k3⟩ := p3
          simp only [h3] at h
          refine Or.inr ⟨s3, k3, rfl, ?_⟩
          cases h4 : critique_linkedin_node llm k3 s3 with
          | error e4 =>
            simp only [h4] at h
            injection h with h4'
            subst h4'
            exact Or.inl rfl
          | ok p4 =>
            obtain ⟨s4, k4⟩ := p4
            simp only [h4] at h
            refine Or.inr ⟨s4, k4, rfl, ?_⟩
            cases h5 : runRounds llm fuel k4 s4 with
            | error e5 =>
              simp only [h5] at h
              injection h with h5'
              subst h5'
              exact rfl
            | ok p5 => simp only [h5] at h; exact Except.noConfusion h

/-- The loop never raises an index error from a state in which truthy
feedback implies a nonempty draft list, for any service behavior. -/
theorem runRounds_no_indexError (llm : Llm) :
    ∀ fuel k s, (pyTruthy s.tweet.feedback = true → s.tweet.drafts ≠ []) →
      (pyTruthy s.linkedin_post.feedback = true → s.linkedin_post.drafts ≠ []) →
      runRounds llm fuel k s ≠ .error .indexError := by
  intro fuel
  induction fuel with
  | zero =>
    intro k s hsT hsL hcontra
    rw [runRounds] at hcontra
    injection hcontra with h2
    exact WfError.noConfusion h2
  | succ fuel ih =>
    intro k s hsT hsL hcontra
    rcases runRounds_succ_error hcontra with h1 | ⟨s1, k1, h1, h2 |
      ⟨s2, k2, h2, hg, h3 | ⟨s3, k3, h3, h4 | ⟨s4, k4, h4, h5⟩⟩⟩⟩
    · exact WfError.noConfusion (tweet_writer_node_error h1 hsT)
    · obtain ⟨fb1, r1, _, _, hs1, _⟩ := tweet_writer_node_eq_ok.mp h1
      exact WfError.noConfusion (linkedin_writer_node_error h2
        (by rw [hs1]; simpa using hsL))
    · obtain ⟨fb1, r1, _, _, hs1, _⟩ := tweet_writer_node_eq_ok.mp h1
      obtain ⟨fb2, r2, _, _, hs2, _⟩ := linkedin_writer_node_eq_ok.mp h2
      exact WfError.noConfusion (critique_tweet_node_error h3 (by rw [hs2, hs1]; simp))
    · obtain ⟨fb1, r1, _, _, hs1, _⟩ := tweet_writer_node_eq_ok.mp h1
      obtain ⟨fb2, r2, _, _, hs2, _⟩ := linkedin_writer_node_eq_ok.mp h2
      obtain ⟨last3, r3, _, _, hs3, _⟩ := critique_tweet_node_eq_ok.mp h3
      exact WfError.noConfusion (critique_linkedin_node_error h4
        (by rw [hs3, hs2]; simp))
    · obtain ⟨last3, r3, _, _, hs3, _⟩ := critique_tweet_node_eq_ok.mp h3
      obtain ⟨last4, r4, _, _, hs4, _⟩ := critique_linkedin_node_eq_ok.mp h4
      obtain ⟨fb1, r1, _, _, hs1, _⟩ := tweet_writer_node_eq_ok.mp h1
      obtain ⟨fb2, r2, _, _, hs2, _⟩ := linkedin_writer_node_eq_ok.mp h2
      exact ih _ _ (by rw [hs4, hs3, hs2, hs1]; simp)
        (by rw [hs4, hs3, hs2]; simp) h5

/-- C10: every `drafts[-1]` access is safe.  In any run from an initial
state with no feedback, the workflow never raises an index error, for
any service behavior; the writers read the last draft only under the
truthy-feedback guard, so with falsy feedback a writer can never raise
an index error even on an empty list; the critiques read the last draft
unconditionally, so on an empty draft list they would raise an index
error — but the gate only ever invokes them after the first writer
round, when both draft lists are nonempty. -/
theorem c10_last_access_safe (llm : Llm) (s x : AppState) (k2 : Nat)
    (hft : s.tweet.feedback = none) (hfl : s.linkedin_post.feedback = none) :
    runWorkflow llm s ≠ .error .indexError ∧
    (pyTruthy x.tweet.feedback = false →
      tweet_writer_node llm k2 x ≠ .error .indexError) ∧
    (pyTruthy x.linkedin_post.feedback = false →
      linkedin_writer_node llm k2 x ≠ .error .indexError) ∧
    (x.tweet.drafts = [] → critique_tweet_node llm k2 x = .error .indexError) ∧
    (x.linkedin_post.drafts = [] → critique_linkedin_node llm k2 x = .error .indexError) := by
  refine ⟨?_, ?_, ?_, ?_, ?_⟩
  · intro hcontra
    unfold runWorkflow at hcontra
    cases h0 : editor_node llm 0 s with
    | error e =>
      simp only [h0] at hcontra
      injection hcontra with h2
      subst h2
      exact WfError.noConfusion (editor_node_error h0)
    | ok p =>
      obtain ⟨s1, k1⟩ := p
      obtain ⟨r0, hllm0, hs0, hk0⟩ := editor_node_eq_ok.mp h0
      simp only [h0] at hcontra
      cases hr : runRounds llm (s.n_drafts + 1) k1 s1 with
      | error e =>
        simp only [hr] at hcontra
        injection hcontra with h2
        subst h2
        exact runRounds_no_indexError llm (s.n_drafts + 1) k1 s1
          (by rw [hs0]; simp [hft, pyTruthy]) (by rw [hs0]; simp [hfl, pyTruthy]) hr
      | ok p5 => simp only [hr] at hcontra; exact Except.noConfusion hcontra
  · intro hfalse hcontra
    have := tweet_writer_node_error hcontra
      (fun ht => by rw [ht] at hfalse; exact Bool.noConfusion hfalse)
    exact WfError.noConfusion this
  · intro hfalse hcontra
    have := linkedin_writer_node_error hcontra
      (fun ht => by rw [ht] at hfalse; exact Bool.noConfusion hfalse)
    exact WfError.noConfusion this
  · intro hempty
    unfold critique_tweet_node
    rw [hempty]
    rfl
  · intro hempty
    unfold critique_linkedin_node
    rw [hempty]
    rfl

/-- C10 witness: the theorem instantiated at the concrete initial state
and the constant service. -/
theorem c10_witness :
    runWorkflow constLlm (initState 1) ≠ .error .indexError ∧
    (pyTruthy (initState 1).tweet.feedback = false →
      tweet_writer_node constLlm 0 (initState 1) ≠ .error .indexError) ∧
    (pyTruthy (initState 1).linkedin_post.feedback = false →
      linkedin_writer_node constLlm 0 (initState 1) ≠ .error .indexError) ∧
    ((initState 1).tweet.drafts = [] →
      critique_tweet_node constLlm 0 (initState 1) = .error .indexError) ∧
    ((initState 1).linkedin_post.drafts = [] →
      critique_linkedin_node constLlm 0 (initState 1) = .error .indexError) :=
  c10_last_access_safe constLlm (initState 1) (initState 1) 0 rfl rfl

/-- The gate is terminal when both counts reached the target. -/
theorem should_rewrite_terminal_of {s : AppState}
    (h1 : s.n_drafts ≤ s.tweet.drafts.length)
    (h2 : s.n_drafts ≤ s.linkedin_post.drafts.length) :
    should_rewrite s = GateResult.terminal := by
  unfold should_rewrite
  rw [if_pos ⟨h1, h2⟩]

/-- The gate reroutes both platforms when a count is short. -/
theorem should_rewrite_reroute_of {s : AppState}
    (h : ¬(s.n_drafts ≤ s.tweet.drafts.length ∧
        s.n_drafts ≤ s.linkedin_post.drafts.length)) :
    should_rewrite s = GateResult.reroute [NodeName.linkedin_critique, NodeName.tweet_critique] := by
  unfold should_rewrite
  rw [if_neg h]

/-- With a total service, the Twitter writer succeeds and appends one
draft. -/
theorem tweet_writer_node_total {llm : Llm} (k : Nat) (s : AppState)
    (hk : ∀ a b, (llm k a b).isSome = true)
    (hsafe : pyTruthy s.tweet.feedback = true → s.tweet.drafts ≠ []) :
    ∃ r s1, s1 = { s with tweet := { drafts := s.tweet.drafts ++ [r],
                                     feedback := s.tweet.feedback } } ∧
      tweet_writer_node llm k s = .ok (s1, k + 1) := by
  obtain ⟨fb, hfb⟩ := feedback_block_isOk "Tweet" s.tweet hsafe
  obtain ⟨r, hr⟩ := Option.isSome_iff_exists.mp
    (hk TWITTER_PROMPT (writer_user_prompt s.edit_text fb s.target_audience))
  exact ⟨r, _, rfl, tweet_writer_node_eq_ok.mpr ⟨fb, r, hfb, hr, rfl, rfl⟩⟩

/-- With a total service, the LinkedIn writer succeeds and appends one
draft. -/
theorem linkedin_writer_node_total {llm : Llm} (k : Nat) (s : AppState)
    (hk : ∀ a b, (llm k a b).isSome = true)
    (hsafe : pyTruthy s.linkedin_post.feedback = true → s.linkedin_post.drafts ≠ []) :
    ∃ r s1, s1 = { s with linkedin_post := { drafts := s.linkedin_post.drafts ++ [r],
                                             feedback := s.linkedin_post.feedback } } ∧
      linkedin_writer_node llm k s = .ok (s1, k + 1) := by
  obtain ⟨fb, hfb⟩ := feedback_block_isOk "LinkedIn post" s.linkedin_post hsafe
  obtain ⟨r, hr⟩ := Option.isSome_iff_exists.mp
    (hk LINKEDIN_PROMPT (writer_user_prompt s.edit_text fb s.target_audience))
  exact ⟨r, _, rfl, linkedin_writer_node_eq_ok.mpr ⟨fb, r, hfb, hr, rfl, rfl⟩⟩

/-- With a total service and a nonempty list, the tweet critique
succeeds and overwrites the feedback. -/
theorem critique_tweet_node_total {llm : Llm} (k : Nat) (s : AppState)
    (hk : ∀ a b, (llm k a b).isSome = true) (hne : s.tweet.drafts ≠ []) :
    ∃ r s1, s1 = { s with tweet := { drafts := s.tweet.drafts, feedback := some r } } ∧
      critique_tweet_node llm k s = .ok (s1, k + 1) := by
  obtain ⟨lastDraft, hgl⟩ := getLast?_isSome_of_ne_nil hne
  obtain ⟨r, hr⟩ := Option.isSome_iff_exists.mp
    (hk TWITTER_CRITIQUE_PROMPT
      (critique_user_prompt "tweet" s.edit_text lastDraft s.target_audience))
  exact ⟨r, _, rfl, critique_tweet_node_eq_ok.mpr ⟨lastDraft, r, hgl, hr, rfl, rfl⟩⟩

/-- With a total service and a nonempty list, the LinkedIn critique
succeeds and overwrites the feedback. -/
theorem critique_linkedin_node_total {llm : Llm} (k : Nat) (s : AppState)
    (hk : ∀ a b, (llm k a b).isSome = true) (hne : s.linkedin_post.drafts ≠ []) :
    ∃ r s1, s1 = { s with linkedin_post := { drafts := s.linkedin_post.drafts,
                                             feedback := some r } } ∧
      critique_linkedin_node llm k s = .ok (s1, k + 1) := by
  obtain ⟨lastDraft, hgl⟩ := getLast?_isSome_of_ne_nil hne
  obtain ⟨r, hr⟩ := Option.isSome_iff_exists.mp
    (hk LINKEDIN_CRITIQUE_PROMPT
      (critique_user_prompt "LinkedIn post" s.edit_text lastDraft s.target_audience))
  exact ⟨r, _, rfl, critique_linkedin_node_eq_ok.mpr ⟨lastDraft, r, hgl, hr, rfl, rfl⟩⟩

/-- Master lemma for the loop under a total service: starting with both
platforms at the same count `c < n_drafts` and enough fuel, the loop
terminates with exactly `n_drafts` drafts on each side, `n_drafts - c`
writer executions and `n_drafts - c - 1` critique executions per
platform, and `4 * (n_drafts - c) - 2` service calls. -/
theorem runRounds_total_spec {llm : Llm} (htotal : ∀ k a b, (llm k a b).isSome = true) :
    ∀ fuel k s, s.tweet.drafts.length = s.linkedin_post.drafts.length →
      s.tweet.drafts.length < s.n_drafts →
      s.n_drafts ≤ s.tweet.drafts.length + fuel →
      (pyTruthy s.tweet.feedback = true → s.tweet.drafts ≠ []) →
      (pyTruthy s.linkedin_post.feedback = true → s.linkedin_post.drafts ≠ []) →
      ∃ s' tr,
        runRounds llm fuel k s =
          .ok (s', k + (4 * (s.n_drafts - s.tweet.drafts.length) - 2), tr) ∧
        s'.tweet.drafts.length = s.n_drafts ∧
        s'.linkedin_post.drafts.length = s.n_drafts ∧
        s'.n_drafts = s.n_drafts ∧
        stageCount tr Stage.tweetWriter = s.n_drafts - s.tweet.drafts.length ∧
        stageCount tr Stage.linkedinWriter = s.n_drafts - s.tweet.drafts.length ∧
        stageCount tr Stage.tweetCritique = s.n_drafts - s.tweet.drafts.length - 1 ∧
        stageCount tr Stage.linkedinCritique = s.n_drafts - s.tweet.drafts.length - 1 := by
  intro fuel
  induction fuel with
  | zero => intro k s heq hlt hfuel hsT hsL; omega
  | succ fuel ih =>
    intro k s heq hlt hfuel hsT hsL
    obtain ⟨r1, s1, hs1, h1⟩ := tweet_writer_node_total k s (fun a b => htotal k a b) hsT
    have hs1T : s1.tweet.drafts = s.tweet.drafts ++ [r1] := by rw [hs1]
    have hs1L : s1.linkedin_post = s.linkedin_post := by rw [hs1]
    have hs1E : s1.edit_text = s.edit_text := by rw [hs1]
    have hs1N : s1.n_drafts = s.n_drafts := by rw [hs1]
    obtain ⟨r2, s2, hs2, h2⟩ := linkedin_writer_node_total (k + 1) s1
      (fun a b => htotal (k + 1) a b) (by rw [hs1L]; exact hsL)
    have hs2T : s2.tweet.drafts = s.tweet.drafts ++ [r1] := by rw [hs2, hs1]
    have hs2L : s2.linkedin_post.drafts = s.linkedin_post.drafts ++ [r2] := by
      rw [hs2, hs1]
    have hs2N : s2.n_drafts = s.n_drafts := by rw [hs2, hs1]
    have hlen2T : s2.tweet.drafts.length = s.tweet.drafts.length + 1 := by
      rw [hs2T]; simp
    have hlen2L : s2.linkedin_post.drafts.length = s.tweet.drafts.length + 1 := by
      rw [hs2L]; simp [heq.symm]
    by_cases hterm : s.n_drafts ≤ s.tweet.drafts.length + 1
    · have hn : s.n_drafts = s.tweet.drafts.length + 1 := by omega
      have hgate : should_rewrite s2 = GateResult.terminal :=
        should_rewrite_terminal_of (by omega) (by omega)
      refine ⟨s2, [(Stage.tweetWriter, s1), (Stage.linkedinWriter, s2)], ?_, ?_, ?_, ?_,
        ?_, ?_, ?_, ?_⟩
      · have harith : 4 * (s.n_drafts - s.tweet.drafts.length) - 2 = 2 := by omega
        rw [harith]
        rw [runRounds]
        simp only [h1, h2, hgate]
      · omega
      · omega
      · omega
      · simp [stageCount]; omega
      · simp [stageCount]; omega
      · simp [stageCount]; omega
      · simp [stageCount]; omega
    · have hgate : should_rewrite s2 =
          GateResult.reroute [NodeName.linkedin_critique, NodeName.tweet_critique] :=
        should_rewrite_reroute_of (by omega)
      obtain ⟨r3, s3, hs3, h3⟩ := critique_tweet_node_total (k + 1 + 1) s2
        (fun a b => htotal (k + 1 + 1) a b) (by rw [hs2T]; simp)
      have hs3T : s3.tweet.drafts = s.tweet.drafts ++ [r1] := by rw [hs3, hs2T]
      have hs3TF : s3.tweet.feedback = some r3 := by rw [hs3]
      have hs3L : s3.linkedin_post = s2.linkedin_post := by rw [hs3]
      have hs3N : s3.n_drafts = s.n_drafts := by rw [hs3]; exact hs2N
      obtain ⟨r4, s4, hs4, h4⟩ := critique_linkedin_node_total (k + 1 + 1 + 1) s3
        (fun a b => htotal (k + 1 + 1 + 1) a b) (by rw [hs3L, hs2L]; simp)
      have hs4T : s4.tweet.drafts = s.tweet.drafts ++ [r1] := by rw [hs4]; exact hs3T
      have hs4TF : s4.tweet.feedback = some r3 := by rw [hs4]; exact hs3TF
      have hs4L : s4.linkedin_post.drafts = s.linkedin_post.drafts ++ [r2] := by
        rw [hs4, hs3L, hs2L]
      have hs4LF : s4.linkedin_post.feedback = some r4 := by rw [hs4]
      have hs4N : s4.n_drafts = s.n_drafts := by rw [hs4]; exact hs3N
      have hlen4T : s4.tweet.drafts.length = s.tweet.drafts.length + 1 := by
        rw [hs4T]; simp
      have hlen4L : s4.linkedin_post.drafts.length = s.tweet.drafts.length + 1 := by
        rw [hs4L]; simp [heq.symm]
      obtain ⟨s', tr', hrec, hT', hL', hN', hcW1, hcW2, hcC1, hcC2⟩ :=
        ih (k + 1 + 1 + 1 + 1) s4 (by omega) (by omega) (by omega)
          (by rw [hs4T]; intro _; simp) (by rw [hs4L]; intro _; simp)
      rw [hlen4T, hs4N] at hrec hcW1 hcW2 hcC1 hcC2
      rw [hs4N] at hT' hL' hN'
      refine ⟨s', (Stage.tweetWriter, s1) :: (Stage.linkedinWriter, s2) ::
        (Stage.tweetCritique, s3) :: (Stage.linkedinCritique, s4) :: tr', ?_, hT', hL', hN',
        ?_, ?_, ?_, ?_⟩
      · have harith : k + 1 + 1 + 1 + 1 + (4 * (s.n_drafts - (s.tweet.drafts.length + 1)) - 2) =
            k + (4 * (s.n_drafts - s.tweet.drafts.length) - 2) := by omega
        rw [harith] at hrec
        rw [runRounds]
        simp only [h1, h2, hgate, h3, h4, hrec]
      · simp [stageCount, hcW1]; omega
      · simp [stageCount, hcW2]; omega
      · simp [stageCount, hcC1]; omega
      · simp [stageCount, hcC2]; omega

/-- Full-run totality: from the caller's initial state, a total service
yields a successful run with exactly `n_drafts` drafts per platform,
one editor execution, `n_drafts` writer and `n_drafts - 1` critique
executions per platform, and `4 * n_drafts - 1` service calls. -/
theorem runWorkflow_total_spec {llm : Llm} (htotal : ∀ k a b, (llm k a b).isSome = true)
    (s : AppState) (hn : 1 ≤ s.n_drafts) (hdt : s.tweet.drafts = [])
    (hdl : s.linkedin_post.drafts = []) (hft : s.tweet.feedback = none)
    (hfl : s.linkedin_post.feedback = none) :
    ∃ s' k' tr, runWorkflow llm s = .ok (s', k', tr) ∧
      s'.tweet.drafts.length = s.n_drafts ∧
      s'.linkedin_post.drafts.length = s.n_drafts ∧
      stageCount tr Stage.editor = 1 ∧
      stageCount tr Stage.tweetWriter = s.n_drafts ∧
      stageCount tr Stage.linkedinWriter = s.n_drafts ∧
      stageCount tr Stage.tweetCritique = s.n_drafts - 1 ∧
      stageCount tr Stage.linkedinCritique = s.n_drafts - 1 ∧
      k' = 4 * s.n_drafts - 1 := by
  obtain ⟨r0, hr0⟩ := Option.isSome_iff_exists.mp
    (htotal 0 EDITOR_PROMPT (editor_user_prompt s.user_text))
  have h0 : editor_node llm 0 s = .ok ({ s with edit_text := r0 }, 1) :=
    editor_node_eq_ok.mpr ⟨r0, hr0, rfl, rfl⟩
  obtain ⟨s', tr', hrun, hT, hL, hN, hW1, hW2, hC1, hC2⟩ :=
    runRounds_total_spec htotal (s.n_drafts + 1) 1 { s with edit_text := r0 }
      (by simp [hdt, hdl]) (by simp [hdt]; omega) (by simp [hdt])
      (by simp [hft, pyTruthy]) (by simp [hfl, pyTruthy])
  simp only [hdt, List.length_nil] at hrun hT hL hN hW1 hW2 hC1 hC2
  obtain ⟨hne, _, _, _, _, _⟩ := runRounds_trace_inv llm _ _ _ _ _ _ hrun
  have hk : 1 + (4 * (s.n_drafts - 0) - 2) = 4 * s.n_drafts - 1 := by omega
  rw [hk] at hrun
  refine ⟨s', 4 * s.n_drafts - 1, (Stage.editor, { s with edit_text := r0 }) :: tr',
    ?_, by simpa using hT, by simpa using hL, ?_, ?_, ?_, ?_, ?_, rfl⟩
  · rw [runWorkflow]
    simp only [h0, hrun]
  · simp [stageCount, stageCount_editor_zero hne]
  · simpa [stageCount] using hW1
  · simpa [stageCount] using hW2
  · simpa [stageCount] using hC1
  · simpa [stageCount] using hC2

/-- C2: for every `n_drafts ≥ 1`, a run from empty workspaces in which
every service call succeeds terminates with exactly `n_drafts` drafts
in each workspace (equality, not merely at-least), and performs exactly
`n_drafts` writer invocations and exactly `n_drafts - 1` critique
invocations per platform, after a single editor invocation. -/
theorem c2_exact_drafts_and_counts (llm : Llm) (s : AppState)
    (htotal : ∀ k a b, (llm k a b).isSome = true)
    (hn : 1 ≤ s.n_drafts)
    (hdt : s.tweet.drafts = []) (hdl : s.linkedin_post.drafts = [])
    (hft : s.tweet.feedback = none) (hfl : s.linkedin_post.feedback = none) :
    ∃ s' k' tr, runWorkflow llm s = .ok (s', k', tr) ∧
      s'.tweet.drafts.length = s.n_drafts ∧
      s'.linkedin_post.drafts.length = s.n_drafts ∧
      stageCount tr Stage.editor = 1 ∧
      stageCount tr Stage.tweetWriter = s.n_drafts ∧
      stageCount tr Stage.linkedinWriter = s.n_drafts ∧
      stageCount tr Stage.tweetCritique = s.n_drafts - 1 ∧
      stageCount tr Stage.linkedinCritique = s.n_drafts - 1 :=
  match runWorkflow_total_spec htotal s hn hdt hdl hft hfl with
  | ⟨s', k', tr, h1, h2, h3, h4, h5, h6, h7, h8, _⟩ =>
    ⟨s', k', tr, h1, h2, h3, h4, h5, h6, h7, h8⟩

/-- C2 witness: the theorem applied to the empty initial state with
target 3 and the constant (always-succeeding) service. -/
theorem c2_witness :
    ∃ s' k' tr, runWorkflow constLlm (initState 3) = .ok (s', k', tr) ∧
      s'.tweet.drafts.length = (initState 3).n_drafts ∧
      s'.linkedin_post.drafts.length = (initState 3).n_drafts ∧
      stageCount tr Stage.editor = 1 ∧
      stageCount tr Stage.tweetWriter = (initState 3).n_drafts ∧
      stageCount tr Stage.linkedinWriter = (initState 3).n_drafts ∧
      stageCount tr Stage.tweetCritique = (initState 3).n_drafts - 1 ∧
      stageCount tr Stage.linkedinCritique = (initState 3).n_drafts - 1 :=
  c2_exact_drafts_and_counts constLlm (initState 3) (fun _ _ _ => rfl)
    (by decide) rfl rfl rfl rfl

/-- C8: for every positive `n_drafts` and every succeeding service, the
engine terminates with a successful result; each writer invocation
strictly increases its platform's draft count by exactly one and leaves
the other platform's count unchanged, and critiques never change either
count, so the counts never decrease and the gate's finite bound is
eventually met. -/
theorem c8_termination (llm : Llm) (s x y : AppState) (k2 k2' : Nat)
    (htotal : ∀ k a b, (llm k a b).isSome = true)
    (hn : 1 ≤ s.n_drafts)
    (hdt : s.tweet.drafts = []) (hdl : s.linkedin_post.drafts = [])
    (hft : s.tweet.feedback = none) (hfl : s.linkedin_post.feedback = none) :
    (∃ s' k' tr, runWorkflow llm s = .ok (s', k', tr)) ∧
    (tweet_writer_node llm k2 x = .ok (y, k2') →
      y.tweet.drafts.length = x.tweet.drafts.length + 1 ∧
      y.linkedin_post.drafts.length = x.linkedin_post.drafts.length) ∧
    (linkedin_writer_node llm k2 x = .ok (y, k2') →
      y.linkedin_post.drafts.length = x.linkedin_post.drafts.length + 1 ∧
      y.tweet.drafts.length = x.tweet.drafts.length) ∧
    (critique_tweet_node llm k2 x = .ok (y, k2') →
      y.tweet.drafts.length = x.tweet.drafts.length ∧
      y.linkedin_post.drafts.length = x.linkedin_post.drafts.length) ∧
    (critique_linkedin_node llm k2 x = .ok (y, k2') →
      y.tweet.drafts.length = x.tweet.drafts.length ∧
      y.linkedin_post.drafts.length = x.linkedin_post.drafts.length) := by
  refine ⟨?_, ?_, ?_, ?_, ?_⟩
  · obtain ⟨s', k', tr, h1, _⟩ := runWorkflow_total_spec htotal s hn hdt hdl hft hfl
    exact ⟨s', k', tr, h1⟩
  · intro h
    obtain ⟨fb, r, _, _, hy, _⟩ := tweet_writer_node_eq_ok.mp h
    subst hy; simp
  · intro h
    obtain ⟨fb, r, _, _, hy, _⟩ := linkedin_writer_node_eq_ok.mp h
    subst hy; simp
  · intro h
    obtain ⟨lastDraft, r, _, _, hy, _⟩ := critique_tweet_node_eq_ok.mp h
    subst hy; simp
  · intro h
    obtain ⟨lastDraft, r, _, _, hy, _⟩ := critique_linkedin_node_eq_ok.mp h
    subst hy; simp

/-- C8 witness: the theorem applied at the concrete initial state with
target 2, the constant service, and the concrete first writer step. -/
theorem c8_witness :
    (∃ s' k' tr, runWorkflow constLlm (initState 2) = .ok (s', k', tr)) ∧
    (tweet_writer_node constLlm 1 run2E = .ok (run2W1, 2) →
      run2W1.tweet.drafts.length = run2E.tweet.drafts.length + 1 ∧
      run2W1.linkedin_post.drafts.length = run2E.linkedin_post.drafts.length) ∧
    (linkedin_writer_node constLlm 1 run2E = .ok (run2W1, 2) →
      run2W1.linkedin_post.drafts.length = run2E.linkedin_post.drafts.length + 1 ∧
      run2W1.tweet.drafts.length = run2E.tweet.drafts.length) ∧
    (critique_tweet_node constLlm 1 run2E = .ok (run2W1, 2) →
      run2W1.tweet.drafts.length = run2E.tweet.drafts.length ∧
      run2W1.linkedin_post.drafts.length = run2E.linkedin_post.drafts.length) ∧
    (critique_linkedin_node constLlm 1 run2E = .ok (run2W1, 2) →
      run2W1.tweet.drafts.length = run2E.tweet.drafts.length ∧
      run2W1.linkedin_post.drafts.length = run2E.linkedin_post.drafts.length) :=
  c8_termination constLlm (initState 2) run2E run2W1 1 2 (fun _ _ _ => rfl)
    (by decide) rfl rfl rfl rfl

/-- A service failing on the editor call aborts the editor stage. -/
theorem editor_node_fails {llm : Llm} {k : Nat} (s : AppState)
    (hnone : ∀ a b, llm k a b = none) : editor_node llm k s = .error .genFailure := by
  unfold editor_node
  simp [hnone]

/-- A service failing on the Twitter writer call aborts the stage with
a generation failure. -/
theorem tweet_writer_node_fails {llm : Llm} {k : Nat} (s : AppState)
    (hnone : ∀ a b, llm k a b = none)
    (hsafe : pyTruthy s.tweet.feedback = true → s.tweet.drafts ≠ []) :
    tweet_writer_node llm k s = .error .genFailure := by
  obtain ⟨fb, hfb⟩ := feedback_block_isOk "Tweet" s.tweet hsafe
  unfold tweet_writer_node
  simp [hfb, hnone]

/-- A service failing on the LinkedIn writer call aborts the stage with
a generation failure. -/
theorem linkedin_writer_node_fails {llm : Llm} {k : Nat} (s : AppState)
    (hnone : ∀ a b, llm k a b = none)
    (hsafe : pyTruthy s.linkedin_post.feedback = true → s.linkedin_post.drafts ≠ []) :
    linkedin_writer_node llm k s = .error .genFailure := by
  obtain ⟨fb, hfb⟩ := feedback_block_isOk "LinkedIn post" s.linkedin_post hsafe
  unfold linkedin_writer_node
  simp [hfb, hnone]

/-- A service failing on the tweet critique call aborts the stage with
a generation failure. -/
theorem critique_tweet_node_fails {llm : Llm} {k : Nat} (s : AppState)
    (hnone : ∀ a b, llm k a b = none) (hne : s.tweet.drafts ≠ []) :
    critique_tweet_node llm k s = .error .genFailure := by
  obtain ⟨lastDraft, hgl⟩ := getLast?_isSome_of_ne_nil hne
  unfold critique_tweet_node
  simp [hgl, hnone]

/-- A service failing on the LinkedIn critique call aborts the stage
with a generation failure. -/
theorem critique_linkedin_node_fails {llm : Llm} {k : Nat} (s : AppState)
    (hnone : ∀ a b, llm k a b = none) (hne : s.linkedin_post.drafts ≠ []) :
    critique_linkedin_node llm k s = .error .genFailure := by
  obtain ⟨lastDraft, hgl⟩ := getLast?_isSome_of_ne_nil hne
  unfold critique_linkedin_node
  simp [hgl, hnone]

/-- If the service succeeds on every call before call `j` and fails at
call `j`, and call `j` falls inside the loop's remaining call window,
the loop aborts with a generation failure. -/
theorem runRounds_fails_at {llm : Llm} {j : Nat}
    (hlt : ∀ k a b, k < j → (llm k a b).isSome = true)
    (hj : ∀ a b, llm j a b = none) :
    ∀ fuel k s, s.tweet.drafts.length = s.linkedin_post.drafts.length →
      s.tweet.drafts.length < s.n_drafts →
      k ≤ j → j ≤ k + (4 * (s.n_drafts - s.tweet.drafts.length) - 3) →
      s.n_drafts ≤ s.tweet.drafts.length + fuel →
      (pyTruthy s.tweet.feedback = true → s.tweet.drafts ≠ []) →
      (pyTruthy s.linkedin_post.feedback = true → s.linkedin_post.drafts ≠ []) →
      runRounds llm fuel k s = .error .genFailure := by
  intro fuel
  induction fuel with
  | zero => intro k s heq hlt2 hkj hjw hfuel hsT hsL; omega
  | succ fuel ih =>
    intro k s heq hclt hkj hjw hfuel hsT hsL
    by_cases hk0 : j = k
    · subst hk0
      rw [runRounds]
      simp only [tweet_writer_node_fails s hj hsT]
    · have hkltj : k < j := lt_of_le_of_ne hkj (fun h => hk0 h.symm)
      obtain ⟨r1, s1, hs1, h1⟩ := tweet_writer_node_total k s
        (fun a b => hlt k a b hkltj) hsT
      have hs1T : s1.tweet.drafts = s.tweet.drafts ++ [r1] := by rw [hs1]
      have hs1L : s1.linkedin_post = s.linkedin_post := by rw [hs1]
      by_cases hk1 : j = k + 1
      · rw [runRounds]
        simp only [h1, linkedin_writer_node_fails s1 (fun a b => hk1 ▸ hj a b)
          (by rw [hs1L]; exact hsL)]
      · have hk1lt : k + 1 < j := by omega
        obtain ⟨r2, s2, hs2, h2⟩ := linkedin_writer_node_total (k + 1) s1
          (fun a b => hlt (k + 1) a b hk1lt) (by rw [hs1L]; exact hsL)
        have hs2T : s2.tweet.drafts = s.tweet.drafts ++ [r1] := by rw [hs2, hs1]
        have hs2L : s2.linkedin_post.drafts = s.linkedin_post.drafts ++ [r2] := by
          rw [hs2, hs1]
        have hs2N : s2.n_drafts = s.n_drafts := by rw [hs2, hs1]
        have hlen2T : s2.tweet.drafts.length = s.tweet.drafts.length + 1 := by
          rw [hs2T]; simp
        have hlen2L : s2.linkedin_post.drafts.length = s.tweet.drafts.length + 1 := by
          rw [hs2L]; simp [heq.symm]
        have hcc : s.tweet.drafts.length + 1 < s.n_drafts := by omega
        have hgate : should_rewrite s2 =
            GateResult.reroute [NodeName.linkedin_critique, NodeName.tweet_critique] :=
          should_rewrite_reroute_of (by omega)
        by_cases hk2 : j = k + 1 + 1
        · rw [runRounds]
          simp only [h1, h2, hgate, critique_tweet_node_fails s2
            (fun a b => hk2 ▸ hj a b) (by rw [hs2T]; simp)]
        · have hk2lt : k + 1 + 1 < j := by omega
          obtain ⟨r3, s3, hs3, h3⟩ := critique_tweet_node_total (k + 1 + 1) s2
            (fun a b => hlt (k + 1 + 1) a b hk2lt) (by rw [hs2T]; simp)
          have hs3T : s3.tweet.drafts = s.tweet.drafts ++ [r1] := by rw [hs3, hs2T]
          have hs3TF : s3.tweet.feedback = some r3 := by rw [hs3]
          have hs3L : s3.linkedin_post = s2.linkedin_post := by rw [hs3]
          have hs3N : s3.n_drafts = s.n_drafts := by rw [hs3]; exact hs2N
          by_cases hk3 : j = k + 1 + 1 + 1
          · rw [runRounds]
            simp only [h1, h2, hgate, h3, critique_linkedin_node_fails s3
              (fun a b => hk3 ▸ hj a b) (by rw [hs3L, hs2L]; simp)]
          · have hk3lt : k + 1 + 1 + 1 < j := by omega
            obtain ⟨r4, s4, hs4, h4⟩ := critique_linkedin_node_total (k + 1 + 1 + 1) s3
              (fun a b => hlt (k + 1 + 1 + 1) a b hk3lt) (by rw [hs3L, hs2L]; simp)
            have hs4T : s4.tweet.drafts = s.tweet.drafts ++ [r1] := by
              rw [hs4]; exact hs3T
            have hs4L : s4.linkedin_post.drafts = s.linkedin_post.drafts ++ [r2] := by
              rw [hs4, hs3L, hs2L]
            have hs4N : s4.n_drafts = s.n_drafts := by rw [hs4]; exact hs3N
            have hlen4T : s4.tweet.drafts.length = s.tweet.drafts.length + 1 := by
              rw [hs4T]; simp
            have hlen4L : s4.linkedin_post.drafts.length = s.tweet.drafts.length + 1 := by
              rw [hs4L]; simp [heq.symm]
            have hrec := ih (k + 1 + 1 + 1 + 1) s4 (by omega) (by omega) (by omega)
              (by omega) (by omega)
              (by rw [hs4T]; intro _; simp) (by rw [hs4L]; intro _; simp)
            rw [runRounds]
            simp only [h1, h2, hgate, h3, h4, hrec]

/-- C4: if the text-generation service fails on any call (the first
call it fails on lying within the run's call window), the entire
workflow aborts with a failure and no state is returned to the caller.
The caller receives only the error value; no partial `WorkflowState`
(such as one with fewer drafts on one platform) exists in the result. -/
theorem c4_failure_aborts (llm : Llm) (s : AppState) (j : Nat)
    (hlt : ∀ k a b, k < j → (llm k a b).isSome = true)
    (hj : ∀ a b, llm j a b = none)
    (hn : 1 ≤ s.n_drafts) (hjle : j ≤ 4 * s.n_drafts - 2)
    (hdt : s.tweet.drafts = []) (hdl : s.linkedin_post.drafts = [])
    (hft : s.tweet.feedback = none) (hfl : s.linkedin_post.feedback = none) :
    runWorkflow llm s = .error .genFailure := by
  by_cases h0 : j = 0
  · subst h0
    rw [runWorkflow]
    simp only [editor_node_fails s hj]
  · obtain ⟨r0, hr0⟩ := Option.isSome_iff_exists.mp
      (hlt 0 EDITOR_PROMPT (editor_user_prompt s.user_text) (by omega))
    have he : editor_node llm 0 s = .ok ({ s with edit_text := r0 }, 1) :=
      editor_node_eq_ok.mpr ⟨r0, hr0, rfl, rfl⟩
    have hfail := runRounds_fails_at hlt hj (s.n_drafts + 1) 1 { s with edit_text := r0 }
      (by simp [hdt, hdl]) (by simp [hdt]; omega) (by omega)
      (by simp [hdt]; omega) (by simp [hdt])
      (by simp [hft, pyTruthy]) (by simp [hfl, pyTruthy])
    rw [runWorkflow]
    simp only [he, hfail]

/-- C4 witness: with `n_drafts = 2` and a service that succeeds on
calls 0 through 3 but fails on call 4 — the LinkedIn critique after the
first round — the run aborts with a generation failure. -/
theorem c4_witness : runWorkflow (failAtLlm 4) (initState 2) = .error .genFailure :=
  c4_failure_aborts (failAtLlm 4) (initState 2) 4
    (fun k a b hk => by simp [failAtLlm, Nat.ne_of_lt hk])
    (fun a b => by simp [failAtLlm])
    (by decide) (by decide) rfl rfl rfl rfl

end SocialMedia
